import Mathlib

/-!
Verification of `sign.py` (sign-fabrication management model).

This file gives a shallow embedding of the parts of `Sign` (and its helpers)
that the checked properties are about: the `save` pipeline (shortcut-field
sync, review-state reset, `number_sort` computation, the duplicate-number
conflict rescan over the sign table), the permission resync
(`assign_remove_perms`), the SVG rendering path (`svg_code`, including the
dynamic/static template detection and the expansion-service threshold),
auto-numbering (`auto_set_number`) and cloning.

External, framework-level effects (ORM persistence itself, HTTP, caching,
background jobs, the imaging library) are modelled as explicit data:
the database is a `List Sign`, the permission store a list of grants, and
the expansion service's response body a plain `String` argument.
-/

/-! ## Python string primitives used by the code -/

/-- Python `str.zfill(w)`: pad with `'0'` on the left up to width `w`;
a leading sign character stays in front of the padding. -/
def pyZfill (s : String) (w : Nat) : String :=
  if w ≤ s.length then s
  else
    match s.data with
    | [] => String.mk (List.replicate w '0')
    | c :: cs =>
      if c = '+' ∨ c = '-' then
        String.mk (c :: (List.replicate (w - s.length) '0' ++ cs))
      else
        String.mk (List.replicate (w - s.length) '0' ++ s.data)

/-- Python `str.ljust(w, fill)`: pad with `fill` on the right up to width `w`. -/
def pyLjust (s : String) (w : Nat) (fill : Char) : String :=
  if w ≤ s.length then s
  else s ++ String.mk (List.replicate (w - s.length) fill)

/-- Python `str.split(".")` on a list of characters (nonempty separator,
so the empty string splits to one empty field). -/
def splitDot : List Char → List (List Char)
  | [] => [[]]
  | c :: cs =>
    let r := splitDot cs
    if c = '.' then [] :: r
    else
      match r with
      | [] => [[c]]
      | h :: t => (c :: h) :: t

/-- Python `".".join(...)` on lists of characters. -/
def joinDot : List (List Char) → List Char
  | [] => []
  | [x] => x
  | x :: xs => x ++ '.' :: joinDot xs

/-! ## `number_sort` encoding (from `Sign.save`, the block duplicated at
src/sign.py lines 236-254 and 278-295):

    num_split = self.number.split(".")
    left = num_split[0]
    if len(num_split) == 1: right = ""
    else: right = ".".join(num_split[1:])
    self.number_sort = "{0}.{1}".format(left.zfill(15), right.ljust(15,"0"))
-/

/-- The number-sort encoding computed by `Sign.save` for a truthy `number`. -/
def numberSortEncode (number : String) : String :=
  let numSplit := splitDot number.data
  let left := String.mk (numSplit.headD [])
  let right :=
    match numSplit with
    | [] => ""
    | [_] => ""
    | _ :: rest => String.mk (joinDot rest)
  pyZfill left 15 ++ "." ++ pyLjust right 15 '0'

/-- Modelled from the claim's words (not the source): each dot-segment after
the first is independently zero-padded on the right to width 15 and the
padded segments are joined by dots. Used only to compare against the
source's `numberSortEncode`. -/
def numberSortClaimed (number : String) : String :=
  if number = "" then ""
  else
    let numSplit := splitDot number.data
    let left := String.mk (numSplit.headD [])
    match numSplit with
    | [] => ""
    | [_] => pyZfill left 15 ++ "." ++ String.mk (List.replicate 15 '0')
    | _ :: rest =>
      pyZfill left 15 ++ "." ++
        String.intercalate "." (rest.map (fun seg => pyLjust (String.mk seg) 15 '0'))

/-! ## Data model

Records carry the fields the verified properties depend on.  Foreign keys
are modelled by their ids (`Option Nat` when the column is nullable); the
fetched `position` and `state` rows are embedded, mirroring the ORM objects
`self.position` / `self.state` available during `save`.  The sort fields
derived from `global_order_id()` of other models are external and omitted.
-/

/-- A `Position` row (src/sign.py lines 38-61): its `save` sets
`project = zone.project`, so we carry both ids as data. -/
structure Position where
  id : Nat
  zone_id : Option Nat
  project_id : Nat
  deriving DecidableEq, Repr

/-- The parts of a workflow `State` row that `Sign.save` reads. -/
structure StateRec where
  id : Nat
  phase_id : Nat
  workflow_id : Nat
  deriving DecidableEq, Repr

/-- A `Sign` row (src/sign.py lines 94-148).  `id = 0` models a
not-yet-persisted record (Python `self.id is None`). -/
structure Sign where
  id : Nat
  position : Position
  sign_template_id : Option Nat
  state : Option StateRec
  number : String
  number_sort : String
  review_state : Char
  zone_id : Option Nat
  project_id : Nat
  phase_id : Option Nat
  workflow_id : Option Nat
  has_conflict_type_location_number : Bool
  has_conflict_location_number : Bool
  has_conflict_type_number : Bool
  deriving DecidableEq, Repr

/-- The snapshot `Sign.__init__` takes of the loaded row
(src/sign.py lines 156-167): the `self.__original_*` fields and
`self.__is_new`. -/
structure Original where
  is_new : Bool
  original_state_id : Option Nat
  original_zone_id : Option Nat
  original_sign_template_id : Option Nat
  original_number : String
  deriving DecidableEq, Repr

/-! ## Conflict rescan (src/sign.py lines 297-363)

Each of the three scopes runs the same three steps on its own flag:
clear the saved sign's flag; query the others matching the previous tuple
and clear the single survivor's flag when exactly one remains; query the
others matching the current tuple and, when any exist, set the flag on all
of them and on the saved sign.  A sibling's `save()` persists just its flag
here: none of its own tracked fields changed, so its rescan guard is false
and its other save-time updates are identities. -/

/-- Previous (type, location, number) tuple filter of scope 1
(line 304): `project=self.project, sign_template_id=__original_sign_template_id,
zone_id=__original_zone_id, number=__original_number`. -/
def prevTLN (orig : Original) (s t : Sign) : Bool :=
  t.project_id == s.project_id && t.sign_template_id == orig.original_sign_template_id &&
    t.zone_id == orig.original_zone_id && t.number == orig.original_number

/-- Current (type, location, number) tuple filter of scope 1 (line 311). -/
def curTLN (s t : Sign) : Bool :=
  t.project_id == s.project_id && t.sign_template_id == s.sign_template_id &&
    t.zone_id == s.zone_id && t.number == s.number

/-- Previous (location, number) tuple filter of scope 2 (line 326). -/
def prevLN (orig : Original) (s t : Sign) : Bool :=
  t.project_id == s.project_id && t.zone_id == orig.original_zone_id &&
    t.number == orig.original_number

/-- Current (location, number) tuple filter of scope 2 (line 333). -/
def curLN (s t : Sign) : Bool :=
  t.project_id == s.project_id && t.zone_id == s.zone_id && t.number == s.number

/-- Previous (type, number) tuple filter of scope 3 (line 348). -/
def prevTN (orig : Original) (s t : Sign) : Bool :=
  t.project_id == s.project_id && t.sign_template_id == orig.original_sign_template_id &&
    t.number == orig.original_number

/-- Current (type, number) tuple filter of scope 3 (line 355). -/
def curTN (s t : Sign) : Bool :=
  t.project_id == s.project_id && t.sign_template_id == s.sign_template_id &&
    t.number == s.number

/-- Setter for the scope-1 flag (`has_conflict_type_location_number`). -/
def setTLN (b : Bool) (t : Sign) : Sign := { t with has_conflict_type_location_number := b }

/-- Setter for the scope-2 flag (`has_conflict_location_number`). -/
def setLN (b : Bool) (t : Sign) : Sign := { t with has_conflict_location_number := b }

/-- Setter for the scope-3 flag (`has_conflict_type_number`). -/
def setTN (b : Bool) (t : Sign) : Sign := { t with has_conflict_type_number := b }

/-- One scope of the conflict rescan, parameterized by its flag setter and
its previous/current tuple filters.  Follows the source block structure:
clear own flag, clear the single remaining previous-tuple sibling, then set
the flag on every current-tuple sibling and on the saved sign.  (The
source's `if not sign.has_conflict_...` before a sibling write skips a
no-op save; the resulting table state is the same.) -/
def rescanBlock (setF : Bool → Sign → Sign) (prevP curP : Sign → Bool)
    (s : Sign) (db : List Sign) : Sign × List Sign :=
  let s := setF false s
  let qsPrev := db.filter (fun t => t.id != s.id && prevP t)
  let db :=
    if qsPrev.length = 1 then
      db.map (fun t => if t.id != s.id && prevP t then setF false t else t)
    else db
  let qsCur := db.filter (fun t => t.id != s.id && curP t)
  if 0 < qsCur.length then
    (setF true s, db.map (fun t => if t.id != s.id && curP t then setF true t else t))
  else (s, db)

/-- Scope 1 (lines 299-319): runs only when both `sign_template` and `zone`
are set. -/
def scopeTypeLocationNumber (orig : Original) : Sign × List Sign → Sign × List Sign
  | (s, db) =>
    if s.sign_template_id.isSome && s.zone_id.isSome then
      rescanBlock setTLN (prevTLN orig s) (curTLN s) s db
    else (s, db)

/-- Scope 2 (lines 321-341): runs only when `zone` is set. -/
def scopeLocationNumber (orig : Original) : Sign × List Sign → Sign × List Sign
  | (s, db) =>
    if s.zone_id.isSome then
      rescanBlock setLN (prevLN orig s) (curLN s) s db
    else (s, db)

/-- Scope 3 (lines 343-363): runs only when `sign_template` is set. -/
def scopeTypeNumber (orig : Original) : Sign × List Sign → Sign × List Sign
  | (s, db) =>
    if s.sign_template_id.isSome then
      rescanBlock setTN (prevTN orig s) (curTN s) s db
    else (s, db)

/-- The full conflict rescan: the three scope blocks in source order. -/
def conflictScan (orig : Original) (s : Sign) (db : List Sign) : Sign × List Sign :=
  scopeTypeNumber orig (scopeLocationNumber orig (scopeTypeLocationNumber orig (s, db)))

/-! ## `Sign.save` (src/sign.py lines 169-394)

Modelled effects: shortcut-field sync, review-state reset, `number_sort`
computation and the conflict rescan over the sign table (`db`).  The
`override_pdf` image conversion, the `global_order_id()`-based sort
strings, the phase zone/template mandate updates, cache invalidation, the
artwork job dispatch and the permission-resync call mutate external systems
and are modelled separately (`assign_remove_perms` below) or omitted. -/

/-- The `save` pipeline.  Returns the saved sign and the updated table of
the other signs (the saved row's own insertion is left to the caller). -/
def Sign.save (orig : Original) (s0 : Sign) (db : List Sign) : Sign × List Sign :=
  let s := { s0 with zone_id := s0.position.zone_id, project_id := s0.position.project_id }
  let s :=
    match s.state with
    | some st => { s with phase_id := some st.phase_id, workflow_id := some st.workflow_id }
    | none => s
  let s :=
    match s.state with
    | some st => if orig.original_state_id ≠ some st.id then { s with review_state := 'N' } else s
    | none => s
  let s :=
    if s.id ≠ 0 then
      if s.number ≠ "" then
        if orig.original_number ≠ s.number then { s with number_sort := numberSortEncode s.number }
        else s
      else { s with number_sort := "" }
    else
      if s.number ≠ "" then { s with number_sort := numberSortEncode s.number }
      else { s with number_sort := "" }
  if orig.is_new = true ∨ orig.original_number ≠ s.number ∨
      orig.original_sign_template_id ≠ s.sign_template_id ∨ orig.original_zone_id ≠ s.zone_id then
    conflictScan orig s db
  else (s, db)

/-- The non-conflict-flag fields of a sign, used to state that the conflict
rescan touches nothing but the three flags. -/
def Sign.core (s : Sign) :=
  (s.id, s.position, s.sign_template_id, s.state, s.number, s.number_sort,
   s.review_state, s.zone_id, s.project_id, s.phase_id, s.workflow_id)

/-! ## Cloning (src/sign.py lines 396-505) -/

/-- `Sign.clone`: deepcopy the sign, append `" (cloned)"` to its number,
null the id, deepcopy the position (new id supplied by the database, passed
in as `newPosId`), save, attach the tags, save again.  `deepcopy` copies
the source instance's `__original_*` snapshot and `__is_new` flag, so both
saves run with the source's `orig`; the database assigns the new primary
key (`newId`) on the first insert.  Attribute-instance, message, revision
and permission copying touch other stores and are omitted here. -/
def Sign.clone (orig : Original) (s : Sign) (db : List Sign) (newPosId newId : Nat) :
    Sign × List Sign :=
  let newSign := { s with
    id := 0
    number := s.number ++ " (cloned)"
    position := { s.position with id := newPosId } }
  let r1 := Sign.save orig newSign db
  let withId := { r1.1 with id := newId }
  Sign.save orig withId r1.2

/-- `Sign.clone_with_attachments` (lines 447-505): identical to `clone` on
the modelled fields; it additionally copies comment attachments, which live
in another store. -/
def Sign.clone_with_attachments (orig : Original) (s : Sign) (db : List Sign)
    (newPosId newId : Nat) : Sign × List Sign :=
  let newSign := { s with
    id := 0
    number := s.number ++ " (cloned)"
    position := { s.position with id := newPosId } }
  let r1 := Sign.save orig newSign db
  let withId := { r1.1 with id := newId }
  Sign.save orig withId r1.2

/-! ## Permission resync (`Sign.assign_remove_perms`, src/sign.py lines 558-613) -/

/-- A guardian permission target: a sign row or a position row. -/
inductive PermObj
  | sign (id : Nat)
  | position (id : Nat)
  deriving DecidableEq, Repr

/-- One group-level object permission. -/
structure Grant where
  perm : String
  group : Nat
  obj : PermObj
  deriving DecidableEq, Repr

/-- The external group-permission store mutated by guardian. -/
abbrev PermStore := List Grant

/-- guardian membership test (`'p' in get_perms(group, obj)`). -/
def hasPerm (p : String) (g : Nat) (o : PermObj) (st : PermStore) : Bool :=
  st.any (fun gr => gr == ⟨p, g, o⟩)

/-- guardian `assign_perm`: granting an already-held permission is a no-op. -/
def assign_perm (p : String) (g : Nat) (o : PermObj) (st : PermStore) : PermStore :=
  if hasPerm p g o st then st else st ++ [⟨p, g, o⟩]

/-- guardian `remove_perm`: delete the matching grant. -/
def remove_perm (p : String) (g : Nat) (o : PermObj) (st : PermStore) : PermStore :=
  st.filter (fun gr => gr != ⟨p, g, o⟩)

/-- The member/viewer groups a phase resolves via `get_member_group()` and
`get_viewer_group()`. -/
structure PhaseGroups where
  member_group : Nat
  viewer_group : Nat
  deriving DecidableEq, Repr

/-- The groups reachable from a workflow state: its phase's groups and its
own viewer group. -/
structure StateGroups where
  phase : PhaseGroups
  viewer_group : Nat
  deriving DecidableEq, Repr

/-- The old-state half of `assign_remove_perms` (lines 562-599): drop the
five sign grants of the old phase/state groups, then drop each of the four
position grants unless some other sign under the position still holds the
corresponding sign grant from the same group. -/
def removeOldPerms (db : List Sign) (s : Sign) (old : StateGroups) (st : PermStore) : PermStore :=
  let st := remove_perm "change_sign" old.phase.member_group (.sign s.id) st
  let st := remove_perm "view_sign" old.phase.member_group (.sign s.id) st
  let st := remove_perm "view_sign" old.phase.viewer_group (.sign s.id) st
  let st := remove_perm "view_sign" old.viewer_group (.sign s.id) st
  let st := remove_perm "review_sign" old.viewer_group (.sign s.id) st
  let others := db.filter (fun t => t.position.id == s.position.id && t.id != s.id)
  let other_sign_phase_member_change :=
    others.any (fun t => hasPerm "change_sign" old.phase.member_group (.sign t.id) st)
  let other_sign_phase_member_view :=
    others.any (fun t => hasPerm "view_sign" old.phase.member_group (.sign t.id) st)
  let other_sign_phase_viewer :=
    others.any (fun t => hasPerm "view_sign" old.phase.viewer_group (.sign t.id) st)
  let other_sign_state_viewer :=
    others.any (fun t => hasPerm "view_sign" old.viewer_group (.sign t.id) st)
  let st := if !other_sign_phase_member_change then
      remove_perm "change_position" old.phase.member_group (.position s.position.id) st
    else st
  let st := if !other_sign_phase_member_view then
      remove_perm "view_position" old.phase.member_group (.position s.position.id) st
    else st
  let st := if !other_sign_phase_viewer then
      remove_perm "view_position" old.phase.viewer_group (.position s.position.id) st
    else st
  let st := if !other_sign_state_viewer then
      remove_perm "view_position" old.viewer_group (.position s.position.id) st
    else st
  st

/-- The unconditional grant half of `assign_remove_perms` (lines 601-613). -/
def grantNewPerms (s : Sign) (newGroups : StateGroups) (st : PermStore) : PermStore :=
  let st := assign_perm "change_sign" newGroups.phase.member_group (.sign s.id) st
  let st := assign_perm "view_sign" newGroups.phase.member_group (.sign s.id) st
  let st := assign_perm "view_sign" newGroups.phase.viewer_group (.sign s.id) st
  let st := assign_perm "view_sign" newGroups.viewer_group (.sign s.id) st
  let st := assign_perm "review_sign" newGroups.viewer_group (.sign s.id) st
  let st := assign_perm "change_position" newGroups.phase.member_group (.position s.position.id) st
  let st := assign_perm "view_position" newGroups.phase.member_group (.position s.position.id) st
  let st := assign_perm "view_position" newGroups.phase.viewer_group (.position s.position.id) st
  let st := assign_perm "view_position" newGroups.viewer_group (.position s.position.id) st
  st

/-- `Sign.assign_remove_perms(old_state)`; `newGroups` holds the groups of
`self.state` (non-null whenever the resync runs). -/
def assign_remove_perms (db : List Sign) (s : Sign) (oldState : Option StateGroups)
    (newGroups : StateGroups) (st : PermStore) : PermStore :=
  match oldState with
  | some old => grantNewPerms s newGroups (removeOldPerms db s old st)
  | none => grantNewPerms s newGroups st

/-! ## SVG rendering (`Sign.svg_code`, src/sign.py lines 1149-1246)

The template string, the resolved attribute mapping, the per-attribute
`prep_for_svg` function, the repeating-attribute slugs and per-message-row
values, and the expansion service's response body are the function's
explicit inputs; the `requests.post` round trip itself is external I/O. -/

/-- The left brace character (written by code point to keep brace
characters out of string literals). -/
def lbraceChar : Char := Char.ofNat 123

/-- The right brace character. -/
def rbraceChar : Char := Char.ofNat 125

/-- A single-quote character. -/
def squoteChar : Char := Char.ofNat 39

/-- A double-quote character. -/
def dquoteChar : Char := Char.ofNat 34

/-- A character matched by the regex metacharacter `.` (anything except a
newline; Python `re` without `DOTALL`). -/
def notNL (c : Char) : Bool := c != Char.ofNat 10

/-- A character matched by `\w` (Python 2 `re` without `re.UNICODE`):
ASCII letters, digits and underscore. -/
def isWordCh (c : Char) : Bool := c.isAlphanum || c = '_'

/-- Match a literal prefix of the input, returning the rest on success. -/
def dropLit : List Char → List Char → Option (List Char)
  | [], l => some l
  | _ :: _, [] => none
  | a :: ns, c :: cs => if a = c then dropLit ns cs else none

/-- Zero or more characters satisfying `p`, then the continuation
(greediness is irrelevant for the existence of a match, which is all
`re.search` is used for here). -/
def starThen (p : Char → Bool) (k : List Char → Bool) : List Char → Bool
  | [] => k []
  | c :: cs => k (c :: cs) || (p c && starThen p k cs)

/-- The regex fragment `('|\")`: one quote character, then the
continuation. -/
def quoteThen (k : List Char → Bool) : List Char → Bool
  | [] => false
  | c :: cs => (c == squoteChar || c == dquoteChar) && k cs

/-- The slug interpolated into the regex source with `%s`: a literal `.`
inside a slug becomes the metacharacter `.` (any non-newline character);
every other slug character matches itself. -/
def slugThen : List Char → (List Char → Bool) → List Char → Bool
  | [], k, l => k l
  | _ :: _, _, [] => false
  | x :: xs, k, c :: cs => (if x = '.' then notNL c else x == c) && slugThen xs k cs

/-- One attempted match of `<g .*?id\w*?=\w*?('|\")SLUG('|\").*?>` (the
pattern compiled at src/sign.py lines 1160 and 1166) at the head of `l`. -/
def gPatAt (slug : List Char) (l : List Char) : Bool :=
  match dropLit "<g ".data l with
  | none => false
  | some l1 =>
    starThen notNL (fun l2 =>
      match dropLit "id".data l2 with
      | none => false
      | some l3 =>
        starThen isWordCh (fun l4 =>
          match dropLit "=".data l4 with
          | none => false
          | some l5 =>
            starThen isWordCh (fun l6 =>
              quoteThen (slugThen slug (quoteThen
                (starThen notNL (fun l7 =>
                  match dropLit ">".data l7 with
                  | some _ => true
                  | none => false)))) l6) l5) l3) l1

/-- `re.search`: does the pattern match at any position of the input? -/
def gSearchAux (slug : List Char) : List Char → Bool
  | [] => gPatAt slug []
  | c :: cs => gPatAt slug (c :: cs) || gSearchAux slug cs

/-- Whether the template contains a `<g>` element whose id matches the
given slug (truthiness of `p.search(template)`). -/
def gSearch (slug : String) (tpl : String) : Bool :=
  gSearchAux slug.data tpl.data

/-- Dynamic-template detection (lines 1158-1169): a tag with `id='repeat'`,
or a `<g>` tag keyed by any resolved attribute key, routes the render
through the expansion service. -/
def useExpander (tpl : String) (attrKeys : List String) : Bool :=
  gSearch "repeat" tpl || attrKeys.any (fun k => gSearch k tpl)

/-- Python `str.replace` worker: replace non-overlapping occurrences left
to right.  Fuel-indexed structural recursion; fuel at least the input
length suffices because a nonempty needle consumes at least one character
per replacement. -/
def replaceGo (needle repl : List Char) : Nat → List Char → List Char
  | _, [] => []
  | 0, l => l
  | fuel + 1, c :: cs =>
    match dropLit needle (c :: cs) with
    | some rest => repl ++ replaceGo needle repl fuel rest
    | none => c :: replaceGo needle repl fuel cs

/-- Python `str.replace` (the needles used here are never empty). -/
def pyreplace (haystack needle repl : String) : String :=
  match needle.data with
  | [] => haystack
  | _ :: _ => String.mk (replaceGo needle.data repl.data haystack.data.length haystack.data)

/-- `Sign.myreplace` (src/sign.py lines 1041-1047): replace both
`{needle}` and `{ needle }` with the replacement.  (`None` replacements
become the empty string before the calls made here.) -/
def myreplace (haystack needle replacement : String) : String :=
  let new := pyreplace haystack ("\x7b" ++ needle ++ "\x7d") replacement
  pyreplace new ("\x7b " ++ needle ++ " \x7d") replacement

/-- Decimal digit character. -/
def digitChar (d : Nat) : Char := Char.ofNat (48 + d)

/-- Decimal digits of a natural number (fuel-indexed; `fuel > 0` and
`fuel > log10 n` suffice). -/
def natToDigits : Nat → Nat → List Char
  | 0, _ => []
  | fuel + 1, n => if n < 10 then [digitChar n] else natToDigits fuel (n / 10) ++ [digitChar (n % 10)]

/-- Python `str(n)` for a natural number. -/
def natStr (n : Nat) : String := String.mk (natToDigits (n + 1) n)

/-- `template.encode('ascii', 'xmlcharrefreplace')` (line 1216), after the
lossy utf-8 decode of line 1215 (a no-op on well-formed text): characters
outside ASCII become numeric character references. -/
def xmlcharref (s : String) : String :=
  String.mk (s.data.foldr
    (fun c acc =>
      if c.toNat < 128 then c :: acc
      else "&#".data ++ natToDigits (c.toNat + 1) c.toNat ++ ";".data ++ acc) [])

/-- Dictionary lookup with a default: `aid.get(slug, ('', None))[0]`. -/
def lookupD (row : List (String × String)) (k d : String) : String :=
  match row.find? (fun kv => kv.1 == k) with
  | some kv => kv.2
  | none => d

/-- Plain-attribute placeholder substitution (lines 1220-1222), iterating
the items of `attributes_prepped_for_svg()`. -/
def substAttributes (attrs : List (String × String)) (t : String) : String :=
  attrs.foldl (fun acc kv => myreplace acc kv.1 kv.2) t

/-- Repeating-message placeholder substitution (lines 1224-1238): row `i`
is addressed as `message_<i+1>.slug` and row 0 additionally as
`message.slug`; each value passes through the attribute's `prep_for_svg`
(`prep`). -/
def substRepeating (prep : String → String → String) (repAttrs : List String)
    (rows : List (List (String × String))) (t : String) : String :=
  (rows.enum).foldl
    (fun acc ir =>
      let pxs := if ir.1 = 0 then ["message_" ++ natStr (ir.1 + 1), "message"]
                 else ["message_" ++ natStr (ir.1 + 1)]
      repAttrs.foldl
        (fun acc2 slug =>
          let value := prep slug (lookupD ir.2 slug "")
          pxs.foldl (fun acc3 px => myreplace acc3 (px ++ "." ++ slug) value) acc2)
        acc)
    t

/-- The substitution tail of `svg_code` (lines 1212-1240): character-
reference encoding, then, when the working template contains a brace,
plain-attribute and repeating-message placeholder substitution. -/
def renderTemplate (attrs : List (String × String)) (prep : String → String → String)
    (repAttrs : List String) (rows : List (List (String × String))) (t : String) : String :=
  let t := xmlcharref t
  if t.data.contains lbraceChar || t.data.contains rbraceChar then
    substRepeating prep repAttrs rows (substAttributes attrs t)
  else t

/-- `Sign.svg_code` (lines 1149-1246) for a sign whose template has SVG
code.  `tpl` is `sign_template.svg_code_w_fonts()`; `attrs` the items of
`attributes_prepped_for_svg()` (whose keys are the keys of
`attributes()`); `repAttrs` the repeating-attribute slugs; `rows` the
per-message `attribute_instances_dict()` values; `resp` the expansion
service's response body.  A response of at most 150 characters leaves the
working template untouched (lines 1195-1209). -/
def svg_code (tpl : String) (attrs : List (String × String)) (prep : String → String → String)
    (repAttrs : List String) (rows : List (List (String × String))) (resp : String) : String :=
  let template :=
    if useExpander tpl (attrs.map (fun kv => kv.1)) then
      if 150 < resp.length then resp else tpl
    else tpl
  renderTemplate attrs prep repAttrs rows template

/-! ## Auto-numbering (`Sign.auto_set_number`, src/sign.py lines 1348-1390) -/

/-- Python whitespace stripped by `int(str)`. -/
def isPySpace (c : Char) : Bool :=
  c = ' ' || c = Char.ofNat 9 || c = Char.ofNat 10 || c = Char.ofNat 11 ||
    c = Char.ofNat 12 || c = Char.ofNat 13

/-- Numeric value of a digit string. -/
def natOfDigits (l : List Char) : Nat :=
  l.foldl (fun acc c => 10 * acc + (c.toNat - 48)) 0

/-- Python `int(str)` in base 10: optional surrounding whitespace, an
optional single sign, then one or more ASCII digits; anything else raises
`ValueError`, modelled as `none`. -/
def pyIntParse (s : String) : Option Int :=
  let l1 := s.data.dropWhile isPySpace
  let l := (l1.reverse.dropWhile isPySpace).reverse
  match l with
  | [] => none
  | c :: cs =>
    let sgn : Int := if c = '-' then -1 else 1
    let digits := if c = '-' ∨ c = '+' then cs else c :: cs
    if digits ≠ [] ∧ digits.all (fun d => d.isDigit) then some (sgn * (natOfDigits digits : Int))
    else none

/-- Python `str(i)` for an integer. -/
def intRepr (i : Int) : String :=
  if i < 0 then "-" ++ natStr i.natAbs else natStr i.natAbs

/-- One iteration of the max-number loop (lines 1379-1386): `int(s.number)`
with `ValueError` degrading to `v = 0`; the accumulator carries the running
maximum and the character length of the number that attained it. -/
def maxNumberStep (acc : Int × Nat) (t : Sign) : Int × Nat :=
  let v : Int := (pyIntParse t.number).getD 0
  if acc.1 < v then (v, t.number.length) else acc

/-- The cold-cache branch of `auto_set_number` (lines 1367-1390): fold the
scope's signs for the largest numeric value, zero-fill it to the attaining
number's width, then produce `str(int(largest) + 1).zfill(len(largest))`
(the zero-filled string always parses back, so the `getD` default is never
taken). -/
def autoNumberValue (scopeSigns : List Sign) : String :=
  let p := scopeSigns.foldl maxNumberStep (0, 0)
  let largest := pyZfill (intRepr p.1) p.2
  pyZfill (intRepr ((pyIntParse largest).getD 0 + 1)) largest.length

/-- The extensional effect of one rescan scope on a table row's flag:
current-tuple siblings get the flag, the lone previous-tuple survivor
(when the previous tuple matched exactly one other sign) loses it, and
every other row keeps its value.  Used to state the rescan
characterization. -/
def conflictFlagSpec (selfId : Nat) (prevP curP : Sign → Bool) (prevCount : Nat)
    (t : Sign) (old : Bool) : Bool :=
  if t.id != selfId && curP t then true
  else if t.id != selfId && prevP t && decide (prevCount = 1) then false
  else old

/-- The nine grants `assign_remove_perms` always applies, regardless of old
state (src/sign.py lines 604-613). -/
def alwaysGranted (s : Sign) (newGroups : StateGroups) : List Grant :=
  [⟨"change_sign", newGroups.phase.member_group, .sign s.id⟩,
   ⟨"view_sign", newGroups.phase.member_group, .sign s.id⟩,
   ⟨"view_sign", newGroups.phase.viewer_group, .sign s.id⟩,
   ⟨"view_sign", newGroups.viewer_group, .sign s.id⟩,
   ⟨"review_sign", newGroups.viewer_group, .sign s.id⟩,
   ⟨"change_position", newGroups.phase.member_group, .position s.position.id⟩,
   ⟨"view_position", newGroups.phase.member_group, .position s.position.id⟩,
   ⟨"view_position", newGroups.phase.viewer_group, .position s.position.id⟩,
   ⟨"view_position", newGroups.viewer_group, .position s.position.id⟩]

/-! ## Concrete rows used to evaluate statements on closed inputs -/

/-- A position at zone 2 of project 3. -/
def examplePosition : Position := { id := 1, zone_id := some 2, project_id := 3 }

/-- A workflow state in phase 5 of workflow 6. -/
def exampleState : StateRec := { id := 4, phase_id := 5, workflow_id := 6 }

/-- A persisted sign row at `examplePosition` in `exampleState`. -/
def exampleSign : Sign where
  id := 7
  position := examplePosition
  sign_template_id := some 8
  state := some exampleState
  number := "1.11"
  number_sort := ""
  review_state := 'A'
  zone_id := none
  project_id := 0
  phase_id := none
  workflow_id := none
  has_conflict_type_location_number := false
  has_conflict_location_number := false
  has_conflict_type_number := false

/-- A load snapshot for `exampleSign` whose state has since changed. -/
def exampleOrig : Original where
  is_new := false
  original_state_id := some 9
  original_zone_id := some 2
  original_sign_template_id := some 8
  original_number := "1.11"

/-! # Theorems -/

/-! ### List helpers for the rescan characterization -/

theorem filter_length_map (m : Sign → Sign) (p : Sign → Bool) (db : List Sign)
    (h : ∀ t, p (m t) = p t) :
    ((db.map m).filter p).length = (db.filter p).length := by
  induction db with
  | nil => rfl
  | cons a l ih =>
    simp only [List.map_cons, List.filter_cons, h a]
    split
    · simp only [List.length_cons, ih]
    · exact ih

theorem filter_pos_of_mem (p : Sign → Bool) (db : List Sign) (t : Sign)
    (ht : t ∈ db) (hp : p t = true) : 0 < (db.filter p).length := by
  have hmem : t ∈ db.filter p := List.mem_filter.2 ⟨ht, hp⟩
  exact List.length_pos.2 (List.ne_nil_of_mem hmem)

theorem rescanBlock_fst (setF : Bool → Sign → Sign) (prevP curP : Sign → Bool)
    (s : Sign) (db : List Sign)
    (hid : ∀ b t, (setF b t).id = t.id)
    (_hprev : ∀ b t, prevP (setF b t) = prevP t)
    (hcur : ∀ b t, curP (setF b t) = curP t)
    (hsets : ∀ b b' t, setF b (setF b' t) = setF b t) :
    (rescanBlock setF prevP curP s db).1 =
      setF (decide (0 < (db.filter (fun u => u.id != s.id && curP u)).length)) s := by
  simp only [rescanBlock, hid]
  by_cases h1 : (db.filter (fun u => u.id != s.id && prevP u)).length = 1
  · have hfl : ((db.map (fun t => if t.id != s.id && prevP t then setF false t else t)).filter
        (fun u => u.id != s.id && curP u)).length =
        (db.filter (fun u => u.id != s.id && curP u)).length := by
      apply filter_length_map
      intro t
      dsimp only
      split
      · simp only [hid, hcur]
      · rfl
    simp only [h1, if_true, hfl]
    by_cases h2 : 0 < (db.filter (fun u => u.id != s.id && curP u)).length
    · simp [h2, hsets]
    · simp [h2]
  · simp only [h1, if_false]
    by_cases h2 : 0 < (db.filter (fun u => u.id != s.id && curP u)).length
    · simp [h2, hsets]
    · simp [h2]

theorem rescanBlock_snd (setF : Bool → Sign → Sign) (prevP curP : Sign → Bool)
    (s : Sign) (db : List Sign)
    (hid : ∀ b t, (setF b t).id = t.id)
    (_hprev : ∀ b t, prevP (setF b t) = prevP t)
    (hcur : ∀ b t, curP (setF b t) = curP t)
    (hsets : ∀ b b' t, setF b (setF b' t) = setF b t) :
    (rescanBlock setF prevP curP s db).2 =
      db.map (fun t =>
        if t.id != s.id && curP t then setF true t
        else if t.id != s.id && prevP t &&
            decide ((db.filter (fun u => u.id != s.id && prevP u)).length = 1) then setF false t
        else t) := by
  simp only [rescanBlock, hid]
  by_cases h1 : (db.filter (fun u => u.id != s.id && prevP u)).length = 1
  · have hfl : ((db.map (fun t => if t.id != s.id && prevP t then setF false t else t)).filter
        (fun u => u.id != s.id && curP u)).length =
        (db.filter (fun u => u.id != s.id && curP u)).length := by
      apply filter_length_map
      intro t
      dsimp only
      split
      · simp only [hid, hcur]
      · rfl
    simp only [h1, if_true, hfl]
    by_cases h2 : 0 < (db.filter (fun u => u.id != s.id && curP u)).length
    · simp only [h2, if_true, List.map_map]
      apply List.map_congr_left
      intro t ht
      simp only [Function.comp_apply, h1, decide_True, Bool.and_true]
      by_cases hP : (t.id != s.id && prevP t) = true
      · simp only [hP, if_true, hid, hcur]
        by_cases hC : (t.id != s.id && curP t) = true
        · simp [hP, hC, hsets]
        · simp [hP, hC]
      · simp only [hP, if_false]
        by_cases hC : (t.id != s.id && curP t) = true
        · simp [hP, hC]
        · simp [hP, hC]
    · simp only [h2, if_false]
      apply List.map_congr_left
      intro t ht
      have hC : ¬((t.id != s.id && curP t) = true) := by
        intro hh
        exact h2 (filter_pos_of_mem _ db t ht hh)
      simp only [h1, decide_True, Bool.and_true]
      by_cases hP : (t.id != s.id && prevP t) = true
      · simp [hP, hC]
      · simp [hP, hC]
  · simp only [h1, if_false]
    by_cases h2 : 0 < (db.filter (fun u => u.id != s.id && curP u)).length
    · simp only [h2, if_true]
      apply List.map_congr_left
      intro t ht
      simp only [h1, decide_False, Bool.and_false]
      by_cases hC : (t.id != s.id && curP t) = true
      · simp [hC]
      · simp [hC]
    · simp only [h2, if_false]
      symm
      have h3 : db.map (fun t =>
          if t.id != s.id && curP t then setF true t
          else if t.id != s.id && prevP t && decide False then setF false t
          else t) = db.map id := by
        apply List.map_congr_left
        intro t ht
        have hC : ¬((t.id != s.id && curP t) = true) := by
          intro hh
          exact h2 (filter_pos_of_mem _ db t ht hh)
        simp [hC]
      rw [h3, List.map_id]

/-! ### Flag setters: projections and predicate invariance (all definitional) -/

@[simp] theorem setTLN_id (b : Bool) (t : Sign) : (setTLN b t).id = t.id := rfl

@[simp] theorem setLN_id (b : Bool) (t : Sign) : (setLN b t).id = t.id := rfl

@[simp] theorem setTN_id (b : Bool) (t : Sign) : (setTN b t).id = t.id := rfl

@[simp] theorem setTLN_core (b : Bool) (t : Sign) : (setTLN b t).core = t.core := rfl

@[simp] theorem setLN_core (b : Bool) (t : Sign) : (setLN b t).core = t.core := rfl

@[simp] theorem setTN_core (b : Bool) (t : Sign) : (setTN b t).core = t.core := rfl

@[simp] theorem setTLN_flag_self (b : Bool) (t : Sign) : (setTLN b t).has_conflict_type_location_number = b := rfl
@[simp] theorem setTLN_flag_ln (b : Bool) (t : Sign) : (setTLN b t).has_conflict_location_number = t.has_conflict_location_number := rfl
@[simp] theorem setTLN_flag_tn (b : Bool) (t : Sign) : (setTLN b t).has_conflict_type_number = t.has_conflict_type_number := rfl

@[simp] theorem setLN_flag_tln (b : Bool) (t : Sign) : (setLN b t).has_conflict_type_location_number = t.has_conflict_type_location_number := rfl
@[simp] theorem setLN_flag_self (b : Bool) (t : Sign) : (setLN b t).has_conflict_location_number = b := rfl
@[simp] theorem setLN_flag_tn (b : Bool) (t : Sign) : (setLN b t).has_conflict_type_number = t.has_conflict_type_number := rfl

@[simp] theorem setTN_flag_tln (b : Bool) (t : Sign) : (setTN b t).has_conflict_type_location_number = t.has_conflict_type_location_number := rfl
@[simp] theorem setTN_flag_ln (b : Bool) (t : Sign) : (setTN b t).has_conflict_location_number = t.has_conflict_location_number := rfl
@[simp] theorem setTN_flag_self (b : Bool) (t : Sign) : (setTN b t).has_conflict_type_number = b := rfl

@[simp] theorem setTLN_zone (b : Bool) (t : Sign) : (setTLN b t).zone_id = t.zone_id := rfl
@[simp] theorem setTLN_template (b : Bool) (t : Sign) : (setTLN b t).sign_template_id = t.sign_template_id := rfl

@[simp] theorem setLN_zone (b : Bool) (t : Sign) : (setLN b t).zone_id = t.zone_id := rfl
@[simp] theorem setLN_template (b : Bool) (t : Sign) : (setLN b t).sign_template_id = t.sign_template_id := rfl

@[simp] theorem setTN_zone (b : Bool) (t : Sign) : (setTN b t).zone_id = t.zone_id := rfl
@[simp] theorem setTN_template (b : Bool) (t : Sign) : (setTN b t).sign_template_id = t.sign_template_id := rfl

@[simp] theorem setTLN_collapse (b b2 : Bool) (t : Sign) : setTLN b (setTLN b2 t) = setTLN b t := rfl

@[simp] theorem setLN_collapse (b b2 : Bool) (t : Sign) : setLN b (setLN b2 t) = setLN b t := rfl

@[simp] theorem setTN_collapse (b b2 : Bool) (t : Sign) : setTN b (setTN b2 t) = setTN b t := rfl

@[simp] theorem prevTLN_setTLN_fst (orig : Original) (b : Bool) (s : Sign) : prevTLN orig (setTLN b s) = prevTLN orig s := rfl
@[simp] theorem prevTLN_setLN_fst (orig : Original) (b : Bool) (s : Sign) : prevTLN orig (setLN b s) = prevTLN orig s := rfl
@[simp] theorem prevTLN_setTN_fst (orig : Original) (b : Bool) (s : Sign) : prevTLN orig (setTN b s) = prevTLN orig s := rfl

@[simp] theorem prevLN_setTLN_fst (orig : Original) (b : Bool) (s : Sign) : prevLN orig (setTLN b s) = prevLN orig s := rfl
@[simp] theorem prevLN_setLN_fst (orig : Original) (b : Bool) (s : Sign) : prevLN orig (setLN b s) = prevLN orig s := rfl
@[simp] theorem prevLN_setTN_fst (orig : Original) (b : Bool) (s : Sign) : prevLN orig (setTN b s) = prevLN orig s := rfl

@[simp] theorem prevTN_setTLN_fst (orig : Original) (b : Bool) (s : Sign) : prevTN orig (setTLN b s) = prevTN orig s := rfl
@[simp] theorem prevTN_setLN_fst (orig : Original) (b : Bool) (s : Sign) : prevTN orig (setLN b s) = prevTN orig s := rfl
@[simp] theorem prevTN_setTN_fst (orig : Original) (b : Bool) (s : Sign) : prevTN orig (setTN b s) = prevTN orig s := rfl

@[simp] theorem curTLN_setTLN_fst (b : Bool) (s : Sign) : curTLN (setTLN b s) = curTLN s := rfl
@[simp] theorem curTLN_setLN_fst (b : Bool) (s : Sign) : curTLN (setLN b s) = curTLN s := rfl
@[simp] theorem curTLN_setTN_fst (b : Bool) (s : Sign) : curTLN (setTN b s) = curTLN s := rfl

@[simp] theorem curLN_setTLN_fst (b : Bool) (s : Sign) : curLN (setTLN b s) = curLN s := rfl
@[simp] theorem curLN_setLN_fst (b : Bool) (s : Sign) : curLN (setLN b s) = curLN s := rfl
@[simp] theorem curLN_setTN_fst (b : Bool) (s : Sign) : curLN (setTN b s) = curLN s := rfl

@[simp] theorem curTN_setTLN_fst (b : Bool) (s : Sign) : curTN (setTLN b s) = curTN s := rfl
@[simp] theorem curTN_setLN_fst (b : Bool) (s : Sign) : curTN (setLN b s) = curTN s := rfl
@[simp] theorem curTN_setTN_fst (b : Bool) (s : Sign) : curTN (setTN b s) = curTN s := rfl

@[simp] theorem prevTLN_setTLN_snd (orig : Original) (s : Sign) (b : Bool) (t : Sign) : prevTLN orig s (setTLN b t) = prevTLN orig s t := rfl
@[simp] theorem prevTLN_setLN_snd (orig : Original) (s : Sign) (b : Bool) (t : Sign) : prevTLN orig s (setLN b t) = prevTLN orig s t := rfl
@[simp] theorem prevTLN_setTN_snd (orig : Original) (s : Sign) (b : Bool) (t : Sign) : prevTLN orig s (setTN b t) = prevTLN orig s t := rfl

@[simp] theorem prevLN_setTLN_snd (orig : Original) (s : Sign) (b : Bool) (t : Sign) : prevLN orig s (setTLN b t) = prevLN orig s t := rfl
@[simp] theorem prevLN_setLN_snd (orig : Original) (s : Sign) (b : Bool) (t : Sign) : prevLN orig s (setLN b t) = prevLN orig s t := rfl
@[simp] theorem prevLN_setTN_snd (orig : Original) (s : Sign) (b : Bool) (t : Sign) : prevLN orig s (setTN b t) = prevLN orig s t := rfl

@[simp] theorem prevTN_setTLN_snd (orig : Original) (s : Sign) (b : Bool) (t : Sign) : prevTN orig s (setTLN b t) = prevTN orig s t := rfl
@[simp] theorem prevTN_setLN_snd (orig : Original) (s : Sign) (b : Bool) (t : Sign) : prevTN orig s (setLN b t) = prevTN orig s t := rfl
@[simp] theorem prevTN_setTN_snd (orig : Original) (s : Sign) (b : Bool) (t : Sign) : prevTN orig s (setTN b t) = prevTN orig s t := rfl

@[simp] theorem curTLN_setTLN_snd (s : Sign) (b : Bool) (t : Sign) : curTLN s (setTLN b t) = curTLN s t := rfl
@[simp] theorem curTLN_setLN_snd (s : Sign) (b : Bool) (t : Sign) : curTLN s (setLN b t) = curTLN s t := rfl
@[simp] theorem curTLN_setTN_snd (s : Sign) (b : Bool) (t : Sign) : curTLN s (setTN b t) = curTLN s t := rfl

@[simp] theorem curLN_setTLN_snd (s : Sign) (b : Bool) (t : Sign) : curLN s (setTLN b t) = curLN s t := rfl
@[simp] theorem curLN_setLN_snd (s : Sign) (b : Bool) (t : Sign) : curLN s (setLN b t) = curLN s t := rfl
@[simp] theorem curLN_setTN_snd (s : Sign) (b : Bool) (t : Sign) : curLN s (setTN b t) = curLN s t := rfl

@[simp] theorem curTN_setTLN_snd (s : Sign) (b : Bool) (t : Sign) : curTN s (setTLN b t) = curTN s t := rfl
@[simp] theorem curTN_setLN_snd (s : Sign) (b : Bool) (t : Sign) : curTN s (setLN b t) = curTN s t := rfl
@[simp] theorem curTN_setTN_snd (s : Sign) (b : Bool) (t : Sign) : curTN s (setTN b t) = curTN s t := rfl

theorem set_all_three (b1 b2 b3 : Bool) (t : Sign) :
    setTN b3 (setLN b2 (setTLN b1 t)) = { t with
      has_conflict_type_location_number := b1
      has_conflict_location_number := b2
      has_conflict_type_number := b3 } := rfl

/-! ### Per-scope characterization -/

theorem proj_inv_g {α : Type} (p : Sign → α) (setF : Bool → Sign → Sign) (c1 c2 : Sign → Bool)
    (hp : ∀ b t, p (setF b t) = p t) (t : Sign) :
    p (if c1 t then setF true t else if c2 t then setF false t else t) = p t := by
  by_cases h1 : c1 t = true
  · simp [h1, hp]
  · by_cases h2 : c2 t = true
    · simp [h1, h2, hp]
    · simp [h1, h2]

theorem map_proj_invariant {α : Type} (f : Sign → α) (g : Sign → Sign) (db : List Sign)
    (h : ∀ t, f (g t) = f t) : (db.map g).map f = db.map f := by
  rw [List.map_map]
  exact List.map_congr_left (fun t _ => h t)

theorem filter_pos_iff (p : Sign → Bool) (db : List Sign) :
    0 < (db.filter p).length ↔ ∃ t ∈ db, p t = true := by
  constructor
  · intro h
    obtain ⟨t, ht⟩ := List.exists_mem_of_length_pos h
    exact ⟨t, (List.mem_filter.1 ht).1, (List.mem_filter.1 ht).2⟩
  · intro h
    obtain ⟨t, ht, hp⟩ := h
    exact filter_pos_of_mem p db t ht hp

theorem scopeTLN_eq (orig : Original) (s : Sign) (db : List Sign)
    (h : (s.sign_template_id.isSome && s.zone_id.isSome) = true) :
    scopeTypeLocationNumber orig (s, db) =
      (setTLN (decide (0 < (db.filter (fun u => u.id != s.id && curTLN s u)).length)) s,
       db.map (fun t =>
         if t.id != s.id && curTLN s t then setTLN true t
         else if t.id != s.id && prevTLN orig s t &&
             decide ((db.filter (fun u => u.id != s.id && prevTLN orig s u)).length = 1) then
           setTLN false t
         else t)) := by
  have e1 := rescanBlock_fst setTLN (prevTLN orig s) (curTLN s) s db
    (fun _ _ => rfl) (fun _ _ => rfl) (fun _ _ => rfl) (fun _ _ _ => rfl)
  have e2 := rescanBlock_snd setTLN (prevTLN orig s) (curTLN s) s db
    (fun _ _ => rfl) (fun _ _ => rfl) (fun _ _ => rfl) (fun _ _ _ => rfl)
  simp only [scopeTypeLocationNumber, h, if_true]
  exact Prod.ext e1 e2

theorem scopeTLN_skip (orig : Original) (s : Sign) (db : List Sign)
    (h : ¬((s.sign_template_id.isSome && s.zone_id.isSome) = true)) :
    scopeTypeLocationNumber orig (s, db) = (s, db) := by
  simp only [scopeTypeLocationNumber, h, Bool.false_eq_true, if_false]

theorem scopeLN_eq (orig : Original) (s : Sign) (db : List Sign)
    (h : s.zone_id.isSome = true) :
    scopeLocationNumber orig (s, db) =
      (setLN (decide (0 < (db.filter (fun u => u.id != s.id && curLN s u)).length)) s,
       db.map (fun t =>
         if t.id != s.id && curLN s t then setLN true t
         else if t.id != s.id && prevLN orig s t &&
             decide ((db.filter (fun u => u.id != s.id && prevLN orig s u)).length = 1) then
           setLN false t
         else t)) := by
  have e1 := rescanBlock_fst setLN (prevLN orig s) (curLN s) s db
    (fun _ _ => rfl) (fun _ _ => rfl) (fun _ _ => rfl) (fun _ _ _ => rfl)
  have e2 := rescanBlock_snd setLN (prevLN orig s) (curLN s) s db
    (fun _ _ => rfl) (fun _ _ => rfl) (fun _ _ => rfl) (fun _ _ _ => rfl)
  simp only [scopeLocationNumber, h, if_true]
  exact Prod.ext e1 e2

theorem scopeLN_skip (orig : Original) (s : Sign) (db : List Sign)
    (h : ¬(s.zone_id.isSome = true)) :
    scopeLocationNumber orig (s, db) = (s, db) := by
  simp only [scopeLocationNumber, h, Bool.false_eq_true, if_false]

theorem scopeTN_eq (orig : Original) (s : Sign) (db : List Sign)
    (h : s.sign_template_id.isSome = true) :
    scopeTypeNumber orig (s, db) =
      (setTN (decide (0 < (db.filter (fun u => u.id != s.id && curTN s u)).length)) s,
       db.map (fun t =>
         if t.id != s.id && curTN s t then setTN true t
         else if t.id != s.id && prevTN orig s t &&
             decide ((db.filter (fun u => u.id != s.id && prevTN orig s u)).length = 1) then
           setTN false t
         else t)) := by
  have e1 := rescanBlock_fst setTN (prevTN orig s) (curTN s) s db
    (fun _ _ => rfl) (fun _ _ => rfl) (fun _ _ => rfl) (fun _ _ _ => rfl)
  have e2 := rescanBlock_snd setTN (prevTN orig s) (curTN s) s db
    (fun _ _ => rfl) (fun _ _ => rfl) (fun _ _ => rfl) (fun _ _ _ => rfl)
  simp only [scopeTypeNumber, h, if_true]
  exact Prod.ext e1 e2

theorem scopeTN_skip (orig : Original) (s : Sign) (db : List Sign)
    (h : ¬(s.sign_template_id.isSome = true)) :
    scopeTypeNumber orig (s, db) = (s, db) := by
  simp only [scopeTypeNumber, h, Bool.false_eq_true, if_false]

/-! ### What each scope leaves untouched -/

theorem scopeTLN_fst_core (orig : Original) (x : Sign × List Sign) :
    ((scopeTypeLocationNumber orig x).1).core = (x.1).core := by
  obtain ⟨s, db⟩ := x
  by_cases h : (s.sign_template_id.isSome && s.zone_id.isSome) = true
  · rw [scopeTLN_eq orig s db h]; exact setTLN_core _ _
  · rw [scopeTLN_skip orig s db h]

theorem scopeLN_fst_core (orig : Original) (x : Sign × List Sign) :
    ((scopeLocationNumber orig x).1).core = (x.1).core := by
  obtain ⟨s, db⟩ := x
  by_cases h : s.zone_id.isSome = true
  · rw [scopeLN_eq orig s db h]; exact setLN_core _ _
  · rw [scopeLN_skip orig s db h]

theorem scopeTN_fst_core (orig : Original) (x : Sign × List Sign) :
    ((scopeTypeNumber orig x).1).core = (x.1).core := by
  obtain ⟨s, db⟩ := x
  by_cases h : s.sign_template_id.isSome = true
  · rw [scopeTN_eq orig s db h]; exact setTN_core _ _
  · rw [scopeTN_skip orig s db h]

theorem conflictScan_fst_core (orig : Original) (s : Sign) (db : List Sign) :
    ((conflictScan orig s db).1).core = s.core := by
  unfold conflictScan
  exact (scopeTN_fst_core orig _).trans ((scopeLN_fst_core orig _).trans (scopeTLN_fst_core orig _))

theorem scopeTLN_snd_core (orig : Original) (x : Sign × List Sign) :
    ((scopeTypeLocationNumber orig x).2).map Sign.core = (x.2).map Sign.core := by
  obtain ⟨s, db⟩ := x
  by_cases h : (s.sign_template_id.isSome && s.zone_id.isSome) = true
  · rw [scopeTLN_eq orig s db h]
    exact map_proj_invariant Sign.core _ db
      (proj_inv_g Sign.core setTLN _ _ (fun b t => setTLN_core b t))
  · rw [scopeTLN_skip orig s db h]

theorem scopeLN_snd_core (orig : Original) (x : Sign × List Sign) :
    ((scopeLocationNumber orig x).2).map Sign.core = (x.2).map Sign.core := by
  obtain ⟨s, db⟩ := x
  by_cases h : s.zone_id.isSome = true
  · rw [scopeLN_eq orig s db h]
    exact map_proj_invariant Sign.core _ db
      (proj_inv_g Sign.core setLN _ _ (fun b t => setLN_core b t))
  · rw [scopeLN_skip orig s db h]

theorem scopeTN_snd_core (orig : Original) (x : Sign × List Sign) :
    ((scopeTypeNumber orig x).2).map Sign.core = (x.2).map Sign.core := by
  obtain ⟨s, db⟩ := x
  by_cases h : s.sign_template_id.isSome = true
  · rw [scopeTN_eq orig s db h]
    exact map_proj_invariant Sign.core _ db
      (proj_inv_g Sign.core setTN _ _ (fun b t => setTN_core b t))
  · rw [scopeTN_skip orig s db h]

theorem conflictScan_snd_core (orig : Original) (s : Sign) (db : List Sign) :
    ((conflictScan orig s db).2).map Sign.core = db.map Sign.core := by
  unfold conflictScan
  exact (scopeTN_snd_core orig _).trans ((scopeLN_snd_core orig _).trans (scopeTLN_snd_core orig _))

/-! ### Shape of the `save` pipeline -/

theorem core_eq_fields {a b : Sign} (h : a.core = b.core) :
    a.id = b.id ∧ a.position = b.position ∧ a.sign_template_id = b.sign_template_id ∧
    a.state = b.state ∧ a.number = b.number ∧ a.number_sort = b.number_sort ∧
    a.review_state = b.review_state ∧ a.zone_id = b.zone_id ∧ a.project_id = b.project_id ∧
    a.phase_id = b.phase_id ∧ a.workflow_id = b.workflow_id := by
  simp only [Sign.core, Prod.mk.injEq] at h
  exact h

set_option maxHeartbeats 1000000 in
theorem save_shape (orig : Original) (s0 : Sign) (db : List Sign) :
    ∃ u : Sign,
      (Sign.save orig s0 db =
        if orig.is_new = true ∨ orig.original_number ≠ u.number ∨
            orig.original_sign_template_id ≠ u.sign_template_id ∨
            orig.original_zone_id ≠ u.zone_id
        then conflictScan orig u db else (u, db)) ∧
      u.zone_id = s0.position.zone_id ∧ u.project_id = s0.position.project_id ∧
      u.position = s0.position ∧ u.state = s0.state ∧ u.number = s0.number ∧
      u.sign_template_id = s0.sign_template_id ∧ u.id = s0.id ∧
      u.has_conflict_type_location_number = s0.has_conflict_type_location_number ∧
      u.has_conflict_location_number = s0.has_conflict_location_number ∧
      u.has_conflict_type_number = s0.has_conflict_type_number ∧
      (u.review_state = match s0.state with
        | some st => if orig.original_state_id ≠ some st.id then 'N' else s0.review_state
        | none => s0.review_state) ∧
      (∀ st : StateRec, s0.state = some st →
        u.phase_id = some st.phase_id ∧ u.workflow_id = some st.workflow_id) ∧
      (u.number_sort =
        if s0.id ≠ 0 then
          if s0.number ≠ "" then
            if orig.original_number ≠ s0.number then numberSortEncode s0.number
            else s0.number_sort
          else ""
        else
          if s0.number ≠ "" then numberSortEncode s0.number else "") := by
  refine ⟨_, rfl, ?_⟩
  rcases hst : s0.state with _ | st
  · simp only [Sign.save, hst]
    refine ⟨?_, ?_, ?_, ?_, ?_, ?_, ?_, ?_, ?_, ?_, ?_, ?_, ?_⟩
    · (repeat' split) <;> rfl
    · (repeat' split) <;> rfl
    · (repeat' split) <;> rfl
    · (repeat' split) <;> rfl
    · (repeat' split) <;> rfl
    · (repeat' split) <;> rfl
    · (repeat' split) <;> rfl
    · (repeat' split) <;> rfl
    · (repeat' split) <;> rfl
    · (repeat' split) <;> rfl
    · (repeat' split) <;> rfl
    · intro st2 hst2
      exact Option.noConfusion hst2
    · (repeat' split) <;> rfl
  · simp only [Sign.save, hst]
    refine ⟨?_, ?_, ?_, ?_, ?_, ?_, ?_, ?_, ?_, ?_, ?_, ?_, ?_⟩
    · (repeat' split) <;> rfl
    · (repeat' split) <;> rfl
    · (repeat' split) <;> rfl
    · (repeat' split) <;> rfl
    · (repeat' split) <;> rfl
    · (repeat' split) <;> rfl
    · (repeat' split) <;> rfl
    · (repeat' split) <;> rfl
    · (repeat' split) <;> rfl
    · (repeat' split) <;> rfl
    · (repeat' split) <;> rfl
    · intro st2 hst2
      injection hst2 with hh
      subst hh
      constructor
      · (repeat' split) <;> rfl
      · (repeat' split) <;> rfl
    · (repeat' split) <;> rfl

theorem save_fst_core_eq (orig : Original) (s : Sign) (db : List Sign) :
    ∃ u : Sign, (Sign.save orig s db).1.core = u.core ∧
      u.zone_id = s.position.zone_id ∧ u.project_id = s.position.project_id ∧
      u.position = s.position ∧ u.state = s.state ∧ u.number = s.number ∧
      u.sign_template_id = s.sign_template_id ∧ u.id = s.id ∧
      (u.review_state = match s.state with
        | some st => if orig.original_state_id ≠ some st.id then 'N' else s.review_state
        | none => s.review_state) ∧
      (∀ st : StateRec, s.state = some st →
        u.phase_id = some st.phase_id ∧ u.workflow_id = some st.workflow_id) ∧
      (u.number_sort =
        if s.id ≠ 0 then
          if s.number ≠ "" then
            if orig.original_number ≠ s.number then numberSortEncode s.number
            else s.number_sort
          else ""
        else
          if s.number ≠ "" then numberSortEncode s.number else "") := by
  obtain ⟨u, hsave, hrest⟩ := save_shape orig s db
  refine ⟨u, ?_, hrest.1, hrest.2.1, hrest.2.2.1, hrest.2.2.2.1, hrest.2.2.2.2.1,
    hrest.2.2.2.2.2.1, hrest.2.2.2.2.2.2.1, hrest.2.2.2.2.2.2.2.2.2.2.1,
    hrest.2.2.2.2.2.2.2.2.2.2.2.1, hrest.2.2.2.2.2.2.2.2.2.2.2.2⟩
  rw [hsave]
  split
  · exact conflictScan_fst_core orig u db
  · rfl

theorem save_db_core (orig : Original) (s : Sign) (db : List Sign) :
    (Sign.save orig s db).2.map Sign.core = db.map Sign.core := by
  obtain ⟨u, hsave, hrest⟩ := save_shape orig s db
  rw [hsave]
  split
  · exact conflictScan_snd_core orig u db
  · rfl

/-- C4: after every save, the denormalized `zone` and `project` shortcut
fields equal the position's zone and project, and, whenever `state` is
non-null at save time, `phase` and `workflow` equal the state's phase and
workflow. -/
theorem save_shortcut_fields_synced (orig : Original) (s : Sign) (db : List Sign) :
    ((Sign.save orig s db).1.zone_id = (Sign.save orig s db).1.position.zone_id) ∧
    ((Sign.save orig s db).1.project_id = (Sign.save orig s db).1.position.project_id) ∧
    ∀ st : StateRec, s.state = some st →
      (Sign.save orig s db).1.phase_id = some st.phase_id ∧
      (Sign.save orig s db).1.workflow_id = some st.workflow_id := by
  obtain ⟨u, hcore, hz, hp, hpos, hstate, hnum, htpl, hid, hrev, hpw, hns⟩ :=
    save_fst_core_eq orig s db
  obtain ⟨hid2, hpos2, htpl2, hstate2, hnum2, hns2, hrev2, hz2, hproj2, hph2, hwf2⟩ :=
    core_eq_fields hcore
  refine ⟨?_, ?_, ?_⟩
  · rw [hz2, hpos2, hz, hpos]
  · rw [hproj2, hpos2, hp, hpos]
  · intro st hst
    obtain ⟨h1, h2⟩ := hpw st hst
    exact ⟨by rw [hph2, h1], by rw [hwf2, h2]⟩

theorem save_shortcut_fields_synced_witness :
    exampleSign.state = some exampleState ∧
    (Sign.save exampleOrig exampleSign []).1.phase_id = some exampleState.phase_id ∧
    (Sign.save exampleOrig exampleSign []).1.workflow_id = some exampleState.workflow_id :=
  ⟨rfl, ((save_shortcut_fields_synced exampleOrig exampleSign []).2.2 exampleState rfl).1,
    ((save_shortcut_fields_synced exampleOrig exampleSign []).2.2 exampleState rfl).2⟩

theorem map_review_of_core (l1 l2 : List Sign) (h : l1.map Sign.core = l2.map Sign.core) :
    l1.map (fun t => t.review_state) = l2.map (fun t => t.review_state) := by
  have h2 := congrArg (List.map (fun c : Nat × Position × Option Nat × Option StateRec ×
    String × String × Char × Option Nat × Nat × Option Nat × Option Nat =>
    c.2.2.2.2.2.2.1)) h
  simpa only [List.map_map, Function.comp] using h2

/-- C8 (amended): `review_state` is reset to `'N'` exactly on a save whose
(non-null) state differs from the loaded state id; a save with an unchanged
state — and likewise a save that cleared the state to null — leaves
`review_state` untouched, on the saved sign and on every other row. -/
theorem review_state_reset_characterized (orig : Original) (s : Sign) (db : List Sign) :
    ((Sign.save orig s db).1.review_state =
      match s.state with
      | some st => if orig.original_state_id ≠ some st.id then 'N' else s.review_state
      | none => s.review_state) ∧
    (Sign.save orig s db).2.map (fun t => t.review_state) =
      db.map (fun t => t.review_state) := by
  obtain ⟨u, hcore, hz, hp, hpos, hstate, hnum, htpl, hid, hrev, hpw, hns⟩ :=
    save_fst_core_eq orig s db
  obtain ⟨hid2, hpos2, htpl2, hstate2, hnum2, hns2, hrev2, hz2, hproj2, hph2, hwf2⟩ :=
    core_eq_fields hcore
  exact ⟨by rw [hrev2, hrev], map_review_of_core _ _ (save_db_core orig s db)⟩

/-- C8 counterexample: a save in which the state changed from state 9 to
null does not reset `review_state`: it stays `'A'`, not `'N'`. -/
theorem review_state_not_reset_on_state_cleared :
    exampleOrig.original_state_id = some 9 ∧
    ({ exampleSign with state := none } : Sign).state = none ∧
    (Sign.save exampleOrig { exampleSign with state := none } []).1.review_state = 'A' ∧
    ('A' : Char) ≠ 'N' := by
  refine ⟨rfl, rfl, ?_, by decide⟩
  decide

/-- C1 (amended): on a save that computes the key (here: a new row, or a
changed number), a non-empty `number` with at least two dot-segments
encodes as the first segment zero-left-padded to width 15, a dot, and the
remaining segments JOINED BY DOTS and then zero-right-padded to width 15
AS A WHOLE (not each segment independently); a one-segment number is the
zero-left-padded segment, a dot, and 15 zeros; an empty number encodes to
the empty string. -/
theorem number_sort_encoding (orig : Original) (s : Sign) (db : List Sign)
    (htrig : s.id = 0 ∨ orig.original_number ≠ s.number) :
    ((Sign.save orig s db).1.number_sort =
      if s.number = "" then "" else numberSortEncode s.number) ∧
    (∀ l rest, splitDot s.number.data = l :: rest → rest ≠ [] →
      numberSortEncode s.number =
        pyZfill (String.mk l) 15 ++ "." ++ pyLjust (String.mk (joinDot rest)) 15 '0') ∧
    (∀ l, splitDot s.number.data = [l] →
      numberSortEncode s.number =
        pyZfill (String.mk l) 15 ++ "." ++ String.mk (List.replicate 15 '0')) := by
  obtain ⟨u, hcore, hz, hp, hpos, hstate, hnum, htpl, hid, hrev, hpw, hns⟩ :=
    save_fst_core_eq orig s db
  obtain ⟨hid2, hpos2, htpl2, hstate2, hnum2, hns2, hrev2, hz2, hproj2, hph2, hwf2⟩ :=
    core_eq_fields hcore
  refine ⟨?_, ?_, ?_⟩
  · rw [hns2, hns]
    rcases htrig with h0 | hch
    · simp only [h0, ne_eq, not_true_eq_false, if_false]
      by_cases hn : s.number = ""
      · simp [hn]
      · simp [hn]
    · by_cases h0 : s.id ≠ 0
      · simp only [ne_eq, h0, not_false_eq_true, if_true]
        by_cases hn : s.number = ""
        · simp [hn]
        · simp [hn, hch]
      · simp only [h0, if_false]
        by_cases hn : s.number = ""
        · simp [hn]
        · simp [hn]
  · intro l rest hsplit hrest
    rcases rest with _ | ⟨r, rs⟩
    · exact absurd rfl hrest
    · simp only [numberSortEncode, hsplit, List.headD_cons]
  · intro l hsplit
    simp only [numberSortEncode, hsplit, List.headD_cons]
    have : pyLjust (String.mk []) 15 '0' = String.mk (List.replicate 15 '0') := by decide
    rw [this]

theorem number_sort_encoding_witness :
    ({ exampleSign with id := 0 } : Sign).id = 0 ∧
    (Sign.save exampleOrig { exampleSign with id := 0 } []).1.number_sort =
      "000000000000001.110000000000000" := by
  refine ⟨rfl, ?_⟩
  have h := (number_sort_encoding exampleOrig { exampleSign with id := 0 } [] (Or.inl rfl)).1
  rw [h]
  decide

/-- C1 counterexample: for the number `"1.11.2"` the code pads the joined
remainder `"11.2"` to width 15 as a whole, whereas the claim's
per-segment padding would give `"110000000000000.200000000000000"`; the two
encodings differ. -/
theorem number_sort_counterexample :
    (Sign.save exampleOrig { exampleSign with id := 0, number := "1.11.2" } []).1.number_sort =
      "000000000000001.11.200000000000" ∧
    numberSortClaimed "1.11.2" = "000000000000001.110000000000000.200000000000000" ∧
    (Sign.save exampleOrig { exampleSign with id := 0, number := "1.11.2" } []).1.number_sort ≠
      numberSortClaimed "1.11.2" := by
  refine ⟨by decide, by decide, by decide⟩

theorem map_number_of_core (l1 l2 : List Sign) (h : l1.map Sign.core = l2.map Sign.core) :
    l1.map (fun t => t.number) = l2.map (fun t => t.number) := by
  have h2 := congrArg (List.map (fun c : Nat × Position × Option Nat × Option StateRec ×
    String × String × Char × Option Nat × Nat × Option Nat × Option Nat =>
    c.2.2.2.2.1)) h
  simpa only [List.map_map, Function.comp] using h2

theorem save_number_eq (orig : Original) (s : Sign) (db : List Sign) :
    (Sign.save orig s db).1.number = s.number := by
  obtain ⟨u, hcore, hz, hp, hpos, hstate, hnum, htpl, hid, hrev, hpw, hns⟩ :=
    save_fst_core_eq orig s db
  obtain ⟨hid2, hpos2, htpl2, hstate2, hnum2, hns2, hrev2, hz2, hproj2, hph2, hwf2⟩ :=
    core_eq_fields hcore
  rw [hnum2, hnum]

/-- C10: both `clone` and `clone_with_attachments` give the new sign the
source's number with the literal suffix `" (cloned)"` appended, every other
row's number is untouched, and in particular a clone never carries its
source's exact number. -/
theorem clone_appends_cloned_suffix (orig : Original) (s : Sign) (db : List Sign)
    (newPosId newId : Nat) :
    ((Sign.clone orig s db newPosId newId).1.number = s.number ++ " (cloned)") ∧
    ((Sign.clone_with_attachments orig s db newPosId newId).1.number =
      s.number ++ " (cloned)") ∧
    ((Sign.clone orig s db newPosId newId).1.number ≠ s.number) ∧
    ((Sign.clone_with_attachments orig s db newPosId newId).1.number ≠ s.number) ∧
    ((Sign.clone orig s db newPosId newId).2.map (fun t => t.number) =
      db.map (fun t => t.number)) := by
  have hsuffix : ∀ n : String, n ++ " (cloned)" ≠ n := by
    intro n h
    have hl := congrArg String.length h
    rw [String.length_append] at hl
    have h9 : (" (cloned)" : String).length = 9 := rfl
    omega
  have h1 : (Sign.clone orig s db newPosId newId).1.number = s.number ++ " (cloned)" := by
    unfold Sign.clone
    rw [save_number_eq]
    show ({ (Sign.save orig _ db).1 with id := newId } : Sign).number = _
    rw [save_number_eq]
  have h2 : (Sign.clone_with_attachments orig s db newPosId newId).1.number =
      s.number ++ " (cloned)" := by
    unfold Sign.clone_with_attachments
    rw [save_number_eq]
    show ({ (Sign.save orig _ db).1 with id := newId } : Sign).number = _
    rw [save_number_eq]
  refine ⟨h1, h2, ?_, ?_, ?_⟩
  · rw [h1]; exact hsuffix s.number
  · rw [h2]; exact hsuffix s.number
  · unfold Sign.clone
    exact (map_number_of_core _ _ (save_db_core _ _ _)).trans
      (map_number_of_core _ _ (save_db_core _ _ _))

theorem clone_appends_cloned_suffix_witness :
    (Sign.clone exampleOrig exampleSign [] 21 22).1.number = "1.11 (cloned)" ∧
    (Sign.clone exampleOrig exampleSign [] 21 22).1.number ≠ exampleSign.number :=
  ⟨((clone_appends_cloned_suffix exampleOrig exampleSign [] 21 22).1).trans (by decide),
    (clone_appends_cloned_suffix exampleOrig exampleSign [] 21 22).2.2.1⟩

/-! ### Auto-numbering degradation -/

theorem maxNumberStep_nonneg (acc : Int × Nat) (t : Sign) (h : 0 ≤ acc.1) :
    0 ≤ (maxNumberStep acc t).1 := by
  simp only [maxNumberStep]
  split
  · dsimp only
    omega
  · exact h

theorem maxNumberStep_skip (acc : Int × Nat) (t : Sign) (h : 0 ≤ acc.1)
    (hp : pyIntParse t.number = none) : maxNumberStep acc t = acc := by
  simp only [maxNumberStep, hp, Option.getD_none]
  rw [if_neg (by omega)]

theorem fold_filter_parseable (signs : List Sign) (acc : Int × Nat) (h : 0 ≤ acc.1) :
    signs.foldl maxNumberStep acc =
      (signs.filter (fun t => (pyIntParse t.number).isSome)).foldl maxNumberStep acc := by
  induction signs generalizing acc with
  | nil => rfl
  | cons a l ih =>
    by_cases hp : (pyIntParse a.number).isSome = true
    · simp only [List.filter_cons, hp, if_true, List.foldl_cons]
      exact ih (maxNumberStep acc a) (maxNumberStep_nonneg acc a h)
    · have hnone : pyIntParse a.number = none := by
        rcases hq : pyIntParse a.number with _ | v
        · rfl
        · rw [hq] at hp
          simp at hp
      simp only [List.filter_cons, hnone, Option.isSome_none, Bool.false_eq_true, if_false,
        List.foldl_cons, maxNumberStep_skip acc a h hnone]
      exact ih acc h

/-- C9: in the auto-numbering maximum, a sign whose `number` is empty or
not parseable as an integer contributes zero — it can never change a
(non-negative) running maximum, dropping all such signs leaves the computed
auto-number unchanged, and the computation is total (the `ValueError` of
`int()` is absorbed as the value 0). -/
theorem auto_number_malformed_degrades_to_zero :
    (∀ (acc : Int × Nat) (t : Sign), 0 ≤ acc.1 → pyIntParse t.number = none →
      maxNumberStep acc t = acc) ∧
    (∀ signs : List Sign,
      autoNumberValue signs =
        autoNumberValue (signs.filter (fun t => (pyIntParse t.number).isSome))) ∧
    pyIntParse "" = none := by
  refine ⟨maxNumberStep_skip, ?_, by decide⟩
  intro signs
  unfold autoNumberValue
  rw [fold_filter_parseable signs (0, 0) (by norm_num)]

theorem auto_number_malformed_degrades_to_zero_witness :
    pyIntParse "B-7" = none ∧
    maxNumberStep (2, 1) { exampleSign with number := "B-7" } = (2, 1) ∧
    autoNumberValue [{ exampleSign with number := "" }, { exampleSign with number := "007" }] =
      "008" := by
  refine ⟨by decide, ?_, by decide⟩
  exact auto_number_malformed_degrades_to_zero.1 (2, 1)
    { exampleSign with number := "B-7" } (by norm_num) (by decide)

/-! ### Expansion threshold and static substitution -/

/-- C6: during a dynamic render, an expansion-service response of length at
most 150 is treated as a failed expansion and not as an error: the original
unexpanded template goes through the rest of the render unchanged (and any
two failed responses give the same result); a response longer than 150
replaces the working template. -/
theorem expansion_threshold (tpl : String) (attrs : List (String × String))
    (prep : String → String → String) (repAttrs : List String)
    (rows : List (List (String × String))) (resp resp2 : String)
    (hdyn : useExpander tpl (attrs.map (fun kv => kv.1)) = true) :
    (resp.length ≤ 150 →
      svg_code tpl attrs prep repAttrs rows resp =
        renderTemplate attrs prep repAttrs rows tpl ∧
      (resp2.length ≤ 150 →
        svg_code tpl attrs prep repAttrs rows resp =
          svg_code tpl attrs prep repAttrs rows resp2)) ∧
    (150 < resp.length →
      svg_code tpl attrs prep repAttrs rows resp =
        renderTemplate attrs prep repAttrs rows resp) := by
  have hshort : ∀ r : String, r.length ≤ 150 →
      svg_code tpl attrs prep repAttrs rows r =
        renderTemplate attrs prep repAttrs rows tpl := by
    intro r hr
    simp only [svg_code, hdyn, if_true]
    rw [if_neg (by omega)]
  constructor
  · intro h
    exact ⟨hshort resp h, fun h2 => (hshort resp h).trans (hshort resp2 h2).symm⟩
  · intro h
    simp only [svg_code, hdyn, if_true]
    rw [if_pos h]

theorem expansion_threshold_witness :
    useExpander "<g id=\x27repeat\x27></g> \x7bnumber\x7d" ["number"] = true ∧
    ("err" : String).length ≤ 150 ∧
    svg_code "<g id=\x27repeat\x27></g> \x7bnumber\x7d" [("number", "42")]
      (fun _ v => v) [] [] "err" = "<g id=\x27repeat\x27></g> 42" := by
  refine ⟨by decide, by decide, ?_⟩
  have h := ((expansion_threshold "<g id=\x27repeat\x27></g> \x7bnumber\x7d" [("number", "42")]
    (fun _ v => v) [] [] "err" "err" (by decide)).1 (by decide)).1
  rw [h]
  decide

/-- C7: a static template — one with no `<g>` element matching the repeat
pattern and none whose id matches a resolved attribute key — never routes
through the expansion service: the detector reports static, and the
rendered result ignores the service response entirely, being exactly the
literal placeholder substitution (plain prepared attributes, then the
per-message-row `message_N.slug` keys with row 1 also addressable as
`message.slug`) over the character-reference-encoded template. -/
theorem static_template_pure_substitution (tpl : String) (attrs : List (String × String))
    (prep : String → String → String) (repAttrs : List String)
    (rows : List (List (String × String))) (resp : String)
    (hrep : gSearch "repeat" tpl = false)
    (hkeys : ∀ k ∈ attrs.map (fun kv => kv.1), gSearch k tpl = false) :
    useExpander tpl (attrs.map (fun kv => kv.1)) = false ∧
    svg_code tpl attrs prep repAttrs rows resp =
      renderTemplate attrs prep repAttrs rows tpl := by
  have hux : useExpander tpl (attrs.map (fun kv => kv.1)) = false := by
    unfold useExpander
    rw [hrep, Bool.false_or, List.any_eq_false]
    intro k hk
    simp [hkeys k hk]
  refine ⟨hux, ?_⟩
  simp only [svg_code, hux, Bool.false_eq_true, if_false]

theorem static_template_pure_substitution_witness :
    gSearch "repeat" "<svg>\x7bnumber\x7d</svg>" = false ∧
    (∀ k ∈ ["number"], gSearch k "<svg>\x7bnumber\x7d</svg>" = false) ∧
    svg_code "<svg>\x7bnumber\x7d</svg>" [("number", "42")] (fun _ v => v) [] []
      "SHOULD NEVER BE USED" = "<svg>42</svg>" := by
  refine ⟨by decide, by decide, ?_⟩
  have h := (static_template_pure_substitution "<svg>\x7bnumber\x7d</svg>" [("number", "42")]
    (fun _ v => v) [] [] "SHOULD NEVER BE USED" (by decide) (by decide)).2
  rw [h]
  decide

/-! ### Permission-store membership -/

theorem hasPerm_iff (p : String) (g : Nat) (o : PermObj) (st : PermStore) :
    hasPerm p g o st = true ↔ (⟨p, g, o⟩ : Grant) ∈ st := by
  unfold hasPerm
  rw [List.any_eq_true]
  constructor
  · rintro ⟨gr, hm, he⟩
    rw [beq_iff_eq] at he
    exact he ▸ hm
  · intro hm
    exact ⟨_, hm, by rw [beq_iff_eq]⟩

theorem mem_remove_perm (gr : Grant) (p : String) (g : Nat) (o : PermObj) (st : PermStore) :
    gr ∈ remove_perm p g o st ↔ gr ∈ st ∧ gr ≠ ⟨p, g, o⟩ := by
  unfold remove_perm
  rw [List.mem_filter]
  simp [bne_iff_ne]

theorem mem_assign_perm (gr : Grant) (p : String) (g : Nat) (o : PermObj) (st : PermStore) :
    gr ∈ assign_perm p g o st ↔ gr ∈ st ∨ gr = ⟨p, g, o⟩ := by
  unfold assign_perm
  split
  · rename_i h
    rw [hasPerm_iff] at h
    constructor
    · exact Or.inl
    · rintro (hm | he)
      · exact hm
      · exact he ▸ h
  · simp [List.mem_append]

theorem mem_ite_remove (c : Bool) (gr : Grant) (p : String) (g : Nat) (o : PermObj)
    (st : PermStore) :
    (gr ∈ if !c then remove_perm p g o st else st) ↔
      gr ∈ st ∧ (c = true ∨ gr ≠ ⟨p, g, o⟩) := by
  cases c
  · simp [mem_remove_perm]
  · simp

theorem any_other_hasPerm_iff (db : List Sign) (s : Sign) (p : String) (g : Nat)
    (st5 st : PermStore)
    (hmem : ∀ t : Sign, t.id ≠ s.id →
      ((⟨p, g, .sign t.id⟩ : Grant) ∈ st5 ↔ (⟨p, g, .sign t.id⟩ : Grant) ∈ st)) :
    ((db.filter (fun t => t.position.id == s.position.id && t.id != s.id)).any
        (fun t => hasPerm p g (.sign t.id) st5)) = true ↔
      ∃ t ∈ db, t.position.id = s.position.id ∧ t.id ≠ s.id ∧
        (⟨p, g, .sign t.id⟩ : Grant) ∈ st := by
  rw [List.any_eq_true]
  constructor
  · rintro ⟨t, htm, hp⟩
    rw [List.mem_filter] at htm
    obtain ⟨htdb, hcond⟩ := htm
    rw [Bool.and_eq_true, beq_iff_eq, bne_iff_ne] at hcond
    rw [hasPerm_iff] at hp
    exact ⟨t, htdb, hcond.1, hcond.2, (hmem t hcond.2).1 hp⟩
  · rintro ⟨t, htdb, hpos, hid, hin⟩
    refine ⟨t, List.mem_filter.2 ⟨htdb, ?_⟩, ?_⟩
    · rw [Bool.and_eq_true, beq_iff_eq, bne_iff_ne]
      exact ⟨hpos, hid⟩
    · rw [hasPerm_iff]
      exact (hmem t hid).2 hin

theorem remove_self_sign_perms_other (st : PermStore) (old : StateGroups) (sid : Nat)
    (p : String) (g tid : Nat) (hid : tid ≠ sid) :
    ((⟨p, g, .sign tid⟩ : Grant) ∈
      remove_perm "review_sign" old.viewer_group (.sign sid)
        (remove_perm "view_sign" old.viewer_group (.sign sid)
          (remove_perm "view_sign" old.phase.viewer_group (.sign sid)
            (remove_perm "view_sign" old.phase.member_group (.sign sid)
              (remove_perm "change_sign" old.phase.member_group (.sign sid) st)))) ↔
      (⟨p, g, .sign tid⟩ : Grant) ∈ st) := by
  have hne : ∀ (q : String) (h : Nat), (⟨p, g, .sign tid⟩ : Grant) ≠ ⟨q, h, .sign sid⟩ := by
    intro q h heq
    injection heq with h1 h2 h3
    exact hid (PermObj.sign.inj h3)
  simp only [mem_remove_perm]
  simp [hne]

theorem remove_self_sign_perms_pos (st : PermStore) (old : StateGroups) (sid : Nat)
    (p : String) (g pid : Nat) :
    ((⟨p, g, .position pid⟩ : Grant) ∈
      remove_perm "review_sign" old.viewer_group (.sign sid)
        (remove_perm "view_sign" old.viewer_group (.sign sid)
          (remove_perm "view_sign" old.phase.viewer_group (.sign sid)
            (remove_perm "view_sign" old.phase.member_group (.sign sid)
              (remove_perm "change_sign" old.phase.member_group (.sign sid) st)))) ↔
      (⟨p, g, .position pid⟩ : Grant) ∈ st) := by
  have hne : ∀ (q : String) (h : Nat), (⟨p, g, .position pid⟩ : Grant) ≠ ⟨q, h, .sign sid⟩ := by
    intro q h heq
    injection heq with h1 h2 h3
    exact PermObj.noConfusion h3
  simp only [mem_remove_perm]
  simp [hne]

theorem removeOld_keep_change_position_iff (db : List Sign) (s : Sign) (old : StateGroups)
    (st : PermStore) :
    ((⟨"change_position", old.phase.member_group, .position s.position.id⟩ : Grant) ∈
        removeOldPerms db s old st) ↔
      ((⟨"change_position", old.phase.member_group, .position s.position.id⟩ : Grant) ∈ st ∧
        ∃ t ∈ db, t.position.id = s.position.id ∧ t.id ≠ s.id ∧
          (⟨"change_sign", old.phase.member_group, .sign t.id⟩ : Grant) ∈ st) := by
  simp only [removeOldPerms]
  rw [mem_ite_remove, mem_ite_remove, mem_ite_remove, mem_ite_remove,
    remove_self_sign_perms_pos,
    any_other_hasPerm_iff db s "change_sign" old.phase.member_group _ st
      (fun t ht => remove_self_sign_perms_other st old s.id "change_sign"
        old.phase.member_group t.id ht)]
  have h1 : (⟨"change_position", old.phase.member_group, .position s.position.id⟩ : Grant) ≠
      ⟨"view_position", old.phase.member_group, .position s.position.id⟩ := by
    intro h
    injection h with ha _ _
    exact absurd ha (by decide)
  have h2 : (⟨"change_position", old.phase.member_group, .position s.position.id⟩ : Grant) ≠
      ⟨"view_position", old.phase.viewer_group, .position s.position.id⟩ := by
    intro h
    injection h with ha _ _
    exact absurd ha (by decide)
  have h3 : (⟨"change_position", old.phase.member_group, .position s.position.id⟩ : Grant) ≠
      ⟨"view_position", old.viewer_group, .position s.position.id⟩ := by
    intro h
    injection h with ha _ _
    exact absurd ha (by decide)
  constructor
  · rintro ⟨⟨⟨⟨hin, hA⟩, hB⟩, hC⟩, hD⟩
    exact ⟨hin, hA.resolve_right (not_not_intro rfl)⟩
  · rintro ⟨hin, hCA⟩
    exact ⟨⟨⟨⟨hin, Or.inl hCA⟩, Or.inr h1⟩, Or.inr h2⟩, Or.inr h3⟩

theorem removeOld_keep_view_position_member_iff (db : List Sign) (s : Sign)
    (old : StateGroups) (st : PermStore)
    (hmv : old.phase.member_group ≠ old.phase.viewer_group)
    (hms : old.phase.member_group ≠ old.viewer_group) :
    ((⟨"view_position", old.phase.member_group, .position s.position.id⟩ : Grant) ∈
        removeOldPerms db s old st) ↔
      ((⟨"view_position", old.phase.member_group, .position s.position.id⟩ : Grant) ∈ st ∧
        ∃ t ∈ db, t.position.id = s.position.id ∧ t.id ≠ s.id ∧
          (⟨"view_sign", old.phase.member_group, .sign t.id⟩ : Grant) ∈ st) := by
  simp only [removeOldPerms]
  rw [mem_ite_remove, mem_ite_remove, mem_ite_remove, mem_ite_remove,
    remove_self_sign_perms_pos,
    any_other_hasPerm_iff db s "view_sign" old.phase.member_group _ st
      (fun t ht => remove_self_sign_perms_other st old s.id "view_sign"
        old.phase.member_group t.id ht)]
  have h1 : (⟨"view_position", old.phase.member_group, .position s.position.id⟩ : Grant) ≠
      ⟨"change_position", old.phase.member_group, .position s.position.id⟩ := by
    intro h
    injection h with ha _ _
    exact absurd ha (by decide)
  have h2 : (⟨"view_position", old.phase.member_group, .position s.position.id⟩ : Grant) ≠
      ⟨"view_position", old.phase.viewer_group, .position s.position.id⟩ := by
    intro h
    injection h with _ hg _
    exact hmv hg
  have h3 : (⟨"view_position", old.phase.member_group, .position s.position.id⟩ : Grant) ≠
      ⟨"view_position", old.viewer_group, .position s.position.id⟩ := by
    intro h
    injection h with _ hg _
    exact hms hg
  constructor
  · rintro ⟨⟨⟨⟨hin, hA⟩, hB⟩, hC⟩, hD⟩
    exact ⟨hin, hB.resolve_right (not_not_intro rfl)⟩
  · rintro ⟨hin, hCB⟩
    exact ⟨⟨⟨⟨hin, Or.inr h1⟩, Or.inl hCB⟩, Or.inr h2⟩, Or.inr h3⟩

theorem removeOld_keep_view_position_phase_viewer_iff (db : List Sign) (s : Sign)
    (old : StateGroups) (st : PermStore)
    (hmv : old.phase.member_group ≠ old.phase.viewer_group)
    (hvs : old.phase.viewer_group ≠ old.viewer_group) :
    ((⟨"view_position", old.phase.viewer_group, .position s.position.id⟩ : Grant) ∈
        removeOldPerms db s old st) ↔
      ((⟨"view_position", old.phase.viewer_group, .position s.position.id⟩ : Grant) ∈ st ∧
        ∃ t ∈ db, t.position.id = s.position.id ∧ t.id ≠ s.id ∧
          (⟨"view_sign", old.phase.viewer_group, .sign t.id⟩ : Grant) ∈ st) := by
  simp only [removeOldPerms]
  rw [mem_ite_remove, mem_ite_remove, mem_ite_remove, mem_ite_remove,
    remove_self_sign_perms_pos,
    any_other_hasPerm_iff db s "view_sign" old.phase.viewer_group _ st
      (fun t ht => remove_self_sign_perms_other st old s.id "view_sign"
        old.phase.viewer_group t.id ht)]
  have h1 : (⟨"view_position", old.phase.viewer_group, .position s.position.id⟩ : Grant) ≠
      ⟨"change_position", old.phase.member_group, .position s.position.id⟩ := by
    intro h
    injection h with ha _ _
    exact absurd ha (by decide)
  have h2 : (⟨"view_position", old.phase.viewer_group, .position s.position.id⟩ : Grant) ≠
      ⟨"view_position", old.phase.member_group, .position s.position.id⟩ := by
    intro h
    injection h with _ hg _
    exact hmv hg.symm
  have h3 : (⟨"view_position", old.phase.viewer_group, .position s.position.id⟩ : Grant) ≠
      ⟨"view_position", old.viewer_group, .position s.position.id⟩ := by
    intro h
    injection h with _ hg _
    exact hvs hg
  constructor
  · rintro ⟨⟨⟨⟨hin, hA⟩, hB⟩, hC⟩, hD⟩
    exact ⟨hin, hC.resolve_right (not_not_intro rfl)⟩
  · rintro ⟨hin, hCC⟩
    exact ⟨⟨⟨⟨hin, Or.inr h1⟩, Or.inr h2⟩, Or.inl hCC⟩, Or.inr h3⟩

theorem removeOld_keep_view_position_state_viewer_iff (db : List Sign) (s : Sign)
    (old : StateGroups) (st : PermStore)
    (hms : old.phase.member_group ≠ old.viewer_group)
    (hvs : old.phase.viewer_group ≠ old.viewer_group) :
    ((⟨"view_position", old.viewer_group, .position s.position.id⟩ : Grant) ∈
        removeOldPerms db s old st) ↔
      ((⟨"view_position", old.viewer_group, .position s.position.id⟩ : Grant) ∈ st ∧
        ∃ t ∈ db, t.position.id = s.position.id ∧ t.id ≠ s.id ∧
          (⟨"view_sign", old.viewer_group, .sign t.id⟩ : Grant) ∈ st) := by
  simp only [removeOldPerms]
  rw [mem_ite_remove, mem_ite_remove, mem_ite_remove, mem_ite_remove,
    remove_self_sign_perms_pos,
    any_other_hasPerm_iff db s "view_sign" old.viewer_group _ st
      (fun t ht => remove_self_sign_perms_other st old s.id "view_sign"
        old.viewer_group t.id ht)]
  have h1 : (⟨"view_position", old.viewer_group, .position s.position.id⟩ : Grant) ≠
      ⟨"change_position", old.phase.member_group, .position s.position.id⟩ := by
    intro h
    injection h with ha _ _
    exact absurd ha (by decide)
  have h2 : (⟨"view_position", old.viewer_group, .position s.position.id⟩ : Grant) ≠
      ⟨"view_position", old.phase.member_group, .position s.position.id⟩ := by
    intro h
    injection h with _ hg _
    exact hms hg.symm
  have h3 : (⟨"view_position", old.viewer_group, .position s.position.id⟩ : Grant) ≠
      ⟨"view_position", old.phase.viewer_group, .position s.position.id⟩ := by
    intro h
    injection h with _ hg _
    exact hvs hg.symm
  constructor
  · rintro ⟨⟨⟨⟨hin, hA⟩, hB⟩, hC⟩, hD⟩
    exact ⟨hin, hD.resolve_right (not_not_intro rfl)⟩
  · rintro ⟨hin, hCD⟩
    exact ⟨⟨⟨⟨hin, Or.inr h1⟩, Or.inr h2⟩, Or.inr h3⟩, Or.inl hCD⟩

theorem mem_grantNewPerms (s : Sign) (ng : StateGroups) (st0 : PermStore) :
    ∀ gr ∈ alwaysGranted s ng, gr ∈ grantNewPerms s ng st0 := by
  intro gr hgr
  simp only [alwaysGranted, List.mem_cons, List.not_mem_nil, or_false] at hgr
  simp only [grantNewPerms]
  rcases hgr with h | h | h | h | h | h | h | h | h <;> subst h <;> simp [mem_assign_perm]

/-- C5: with a non-null old state, each of the four position-level grants
tied to the old state/phase groups survives the removal phase exactly when
the grant was held and some other sign at the same position still holds the
corresponding sign-level grant from that group — equivalently, it is
revoked iff no such other sign exists; the resync is exactly that removal
phase followed by the unconditional grant phase; and regardless of old
state the resync always ends with change+view on the sign for the new
phase's member group, view for the new phase's viewer group, view+review
for the new state's viewer group, and the matching change/view set on the
position. -/
theorem assign_remove_perms_spec (db : List Sign) (s : Sign) (old newGroups : StateGroups)
    (st : PermStore)
    (hmv : old.phase.member_group ≠ old.phase.viewer_group)
    (hms : old.phase.member_group ≠ old.viewer_group)
    (hvs : old.phase.viewer_group ≠ old.viewer_group) :
    (((⟨"change_position", old.phase.member_group, .position s.position.id⟩ : Grant) ∈
        removeOldPerms db s old st) ↔
      ((⟨"change_position", old.phase.member_group, .position s.position.id⟩ : Grant) ∈ st ∧
        ∃ t ∈ db, t.position.id = s.position.id ∧ t.id ≠ s.id ∧
          (⟨"change_sign", old.phase.member_group, .sign t.id⟩ : Grant) ∈ st)) ∧
    (((⟨"view_position", old.phase.member_group, .position s.position.id⟩ : Grant) ∈
        removeOldPerms db s old st) ↔
      ((⟨"view_position", old.phase.member_group, .position s.position.id⟩ : Grant) ∈ st ∧
        ∃ t ∈ db, t.position.id = s.position.id ∧ t.id ≠ s.id ∧
          (⟨"view_sign", old.phase.member_group, .sign t.id⟩ : Grant) ∈ st)) ∧
    (((⟨"view_position", old.phase.viewer_group, .position s.position.id⟩ : Grant) ∈
        removeOldPerms db s old st) ↔
      ((⟨"view_position", old.phase.viewer_group, .position s.position.id⟩ : Grant) ∈ st ∧
        ∃ t ∈ db, t.position.id = s.position.id ∧ t.id ≠ s.id ∧
          (⟨"view_sign", old.phase.viewer_group, .sign t.id⟩ : Grant) ∈ st)) ∧
    (((⟨"view_position", old.viewer_group, .position s.position.id⟩ : Grant) ∈
        removeOldPerms db s old st) ↔
      ((⟨"view_position", old.viewer_group, .position s.position.id⟩ : Grant) ∈ st ∧
        ∃ t ∈ db, t.position.id = s.position.id ∧ t.id ≠ s.id ∧
          (⟨"view_sign", old.viewer_group, .sign t.id⟩ : Grant) ∈ st)) ∧
    (assign_remove_perms db s (some old) newGroups st =
      grantNewPerms s newGroups (removeOldPerms db s old st)) ∧
    (∀ oldState : Option StateGroups, ∀ gr ∈ alwaysGranted s newGroups,
      gr ∈ assign_remove_perms db s oldState newGroups st) := by
  refine ⟨removeOld_keep_change_position_iff db s old st,
    removeOld_keep_view_position_member_iff db s old st hmv hms,
    removeOld_keep_view_position_phase_viewer_iff db s old st hmv hvs,
    removeOld_keep_view_position_state_viewer_iff db s old st hms hvs,
    rfl, ?_⟩
  intro oldState gr hgr
  cases oldState with
  | some o => exact mem_grantNewPerms s newGroups _ gr hgr
  | none => exact mem_grantNewPerms s newGroups _ gr hgr

theorem assign_remove_perms_spec_witness :
    ((100 : Nat) ≠ 101 ∧ (100 : Nat) ≠ 102 ∧ (101 : Nat) ≠ 102) ∧
    ((⟨"change_position", 100, .position 1⟩ : Grant) ∈
      removeOldPerms [exampleSign, { exampleSign with id := 10 }] exampleSign ⟨⟨100, 101⟩, 102⟩
        [⟨"change_position", 100, .position 1⟩, ⟨"view_position", 100, .position 1⟩,
         ⟨"change_sign", 100, .sign 10⟩]) ∧
    ((⟨"view_position", 100, .position 1⟩ : Grant) ∉
      removeOldPerms [exampleSign, { exampleSign with id := 10 }] exampleSign ⟨⟨100, 101⟩, 102⟩
        [⟨"change_position", 100, .position 1⟩, ⟨"view_position", 100, .position 1⟩,
         ⟨"change_sign", 100, .sign 10⟩]) ∧
    ((⟨"view_sign", 201, .sign 7⟩ : Grant) ∈
      assign_remove_perms [exampleSign, { exampleSign with id := 10 }] exampleSign
        (some ⟨⟨100, 101⟩, 102⟩) ⟨⟨200, 201⟩, 202⟩
        [⟨"change_position", 100, .position 1⟩, ⟨"view_position", 100, .position 1⟩,
         ⟨"change_sign", 100, .sign 10⟩]) := by
  have H := assign_remove_perms_spec [exampleSign, { exampleSign with id := 10 }] exampleSign
    ⟨⟨100, 101⟩, 102⟩ ⟨⟨200, 201⟩, 202⟩
    [⟨"change_position", 100, .position 1⟩, ⟨"view_position", 100, .position 1⟩,
     ⟨"change_sign", 100, .sign 10⟩]
    (by decide) (by decide) (by decide)
  refine ⟨⟨by decide, by decide, by decide⟩, ?_, ?_, ?_⟩
  · exact H.1.2 (by decide)
  · intro hmem
    exact absurd (H.2.1.1 hmem) (by decide)
  · exact H.2.2.2.2.2 (some ⟨⟨100, 101⟩, 102⟩) _ (by decide)

/-! ### Each scope touches only its own flag -/

theorem scopeTypeLocationNumber_keeps_ln (orig : Original) (x : Sign × List Sign) :
    (((scopeTypeLocationNumber orig x).1).has_conflict_location_number = (x.1).has_conflict_location_number) ∧
    (((scopeTypeLocationNumber orig x).2).map (fun t => t.has_conflict_location_number) =
      (x.2).map (fun t => t.has_conflict_location_number)) := by
  obtain ⟨s, db⟩ := x
  by_cases h : (s.sign_template_id.isSome && s.zone_id.isSome) = true
  · rw [scopeTLN_eq orig s db h]
    refine ⟨setTLN_flag_ln _ _, ?_⟩
    exact map_proj_invariant _ _ db
      (proj_inv_g (fun t => t.has_conflict_location_number) setTLN _ _ (fun b t => setTLN_flag_ln b t))
  · rw [scopeTLN_skip orig s db h]
    exact ⟨rfl, rfl⟩

theorem scopeTypeLocationNumber_keeps_tn (orig : Original) (x : Sign × List Sign) :
    (((scopeTypeLocationNumber orig x).1).has_conflict_type_number = (x.1).has_conflict_type_number) ∧
    (((scopeTypeLocationNumber orig x).2).map (fun t => t.has_conflict_type_number) =
      (x.2).map (fun t => t.has_conflict_type_number)) := by
  obtain ⟨s, db⟩ := x
  by_cases h : (s.sign_template_id.isSome && s.zone_id.isSome) = true
  · rw [scopeTLN_eq orig s db h]
    refine ⟨setTLN_flag_tn _ _, ?_⟩
    exact map_proj_invariant _ _ db
      (proj_inv_g (fun t => t.has_conflict_type_number) setTLN _ _ (fun b t => setTLN_flag_tn b t))
  · rw [scopeTLN_skip orig s db h]
    exact ⟨rfl, rfl⟩

theorem scopeLocationNumber_keeps_tln (orig : Original) (x : Sign × List Sign) :
    (((scopeLocationNumber orig x).1).has_conflict_type_location_number = (x.1).has_conflict_type_location_number) ∧
    (((scopeLocationNumber orig x).2).map (fun t => t.has_conflict_type_location_number) =
      (x.2).map (fun t => t.has_conflict_type_location_number)) := by
  obtain ⟨s, db⟩ := x
  by_cases h : s.zone_id.isSome = true
  · rw [scopeLN_eq orig s db h]
    refine ⟨setLN_flag_tln _ _, ?_⟩
    exact map_proj_invariant _ _ db
      (proj_inv_g (fun t => t.has_conflict_type_location_number) setLN _ _ (fun b t => setLN_flag_tln b t))
  · rw [scopeLN_skip orig s db h]
    exact ⟨rfl, rfl⟩

theorem scopeLocationNumber_keeps_tn (orig : Original) (x : Sign × List Sign) :
    (((scopeLocationNumber orig x).1).has_conflict_type_number = (x.1).has_conflict_type_number) ∧
    (((scopeLocationNumber orig x).2).map (fun t => t.has_conflict_type_number) =
      (x.2).map (fun t => t.has_conflict_type_number)) := by
  obtain ⟨s, db⟩ := x
  by_cases h : s.zone_id.isSome = true
  · rw [scopeLN_eq orig s db h]
    refine ⟨setLN_flag_tn _ _, ?_⟩
    exact map_proj_invariant _ _ db
      (proj_inv_g (fun t => t.has_conflict_type_number) setLN _ _ (fun b t => setLN_flag_tn b t))
  · rw [scopeLN_skip orig s db h]
    exact ⟨rfl, rfl⟩

theorem scopeTypeNumber_keeps_tln (orig : Original) (x : Sign × List Sign) :
    (((scopeTypeNumber orig x).1).has_conflict_type_location_number = (x.1).has_conflict_type_location_number) ∧
    (((scopeTypeNumber orig x).2).map (fun t => t.has_conflict_type_location_number) =
      (x.2).map (fun t => t.has_conflict_type_location_number)) := by
  obtain ⟨s, db⟩ := x
  by_cases h : s.sign_template_id.isSome = true
  · rw [scopeTN_eq orig s db h]
    refine ⟨setTN_flag_tln _ _, ?_⟩
    exact map_proj_invariant _ _ db
      (proj_inv_g (fun t => t.has_conflict_type_location_number) setTN _ _ (fun b t => setTN_flag_tln b t))
  · rw [scopeTN_skip orig s db h]
    exact ⟨rfl, rfl⟩

theorem scopeTypeNumber_keeps_ln (orig : Original) (x : Sign × List Sign) :
    (((scopeTypeNumber orig x).1).has_conflict_location_number = (x.1).has_conflict_location_number) ∧
    (((scopeTypeNumber orig x).2).map (fun t => t.has_conflict_location_number) =
      (x.2).map (fun t => t.has_conflict_location_number)) := by
  obtain ⟨s, db⟩ := x
  by_cases h : s.sign_template_id.isSome = true
  · rw [scopeTN_eq orig s db h]
    refine ⟨setTN_flag_ln _ _, ?_⟩
    exact map_proj_invariant _ _ db
      (proj_inv_g (fun t => t.has_conflict_location_number) setTN _ _ (fun b t => setTN_flag_ln b t))
  · rw [scopeTN_skip orig s db h]
    exact ⟨rfl, rfl⟩

/-! ### Predicates depend only on core fields -/

theorem getF_ite_spec (setF : Bool → Sign → Sign) (getF : Sign → Bool)
    (c1 c2 : Sign → Bool) (t : Sign)
    (hget : ∀ b u, getF (setF b u) = b) :
    getF (if c1 t then setF true t else if c2 t then setF false t else t) =
      if c1 t then true else if c2 t then false else getF t := by
  by_cases h1 : c1 t = true
  · simp [h1, hget]
  · by_cases h2 : c2 t = true
    · simp [h1, h2, hget]
    · simp [h1, h2]

theorem exists_pred_map (g : Sign → Sign) (db : List Sign) (q : Sign → Prop)
    (h : ∀ t, q (g t) ↔ q t) : (∃ t ∈ db.map g, q t) ↔ ∃ t ∈ db, q t := by
  constructor
  · rintro ⟨t, ht, hq⟩
    rw [List.mem_map] at ht
    obtain ⟨u, hu, rfl⟩ := ht
    exact ⟨u, hu, (h u).1 hq⟩
  · rintro ⟨t, ht, hq⟩
    exact ⟨g t, List.mem_map_of_mem g ht, (h t).2 hq⟩

theorem id_of_core {a b : Sign} (h : a.core = b.core) : a.id = b.id :=
  (core_eq_fields h).1

theorem prevTLN_fst_core (orig : Original) {a b : Sign} (h : a.core = b.core) :
    prevTLN orig a = prevTLN orig b := by
  obtain ⟨_, _, _, _, _, _, _, _, hproj, _, _⟩ := core_eq_fields h
  funext t
  unfold prevTLN
  rw [hproj]

theorem curTLN_fst_core {a b : Sign} (h : a.core = b.core) : curTLN a = curTLN b := by
  obtain ⟨_, _, htpl, _, hnum, _, _, hz, hproj, _, _⟩ := core_eq_fields h
  funext t
  unfold curTLN
  rw [hproj, htpl, hz, hnum]

theorem prevLN_fst_core (orig : Original) {a b : Sign} (h : a.core = b.core) :
    prevLN orig a = prevLN orig b := by
  obtain ⟨_, _, _, _, _, _, _, _, hproj, _, _⟩ := core_eq_fields h
  funext t
  unfold prevLN
  rw [hproj]

theorem curLN_fst_core {a b : Sign} (h : a.core = b.core) : curLN a = curLN b := by
  obtain ⟨_, _, _, _, hnum, _, _, hz, hproj, _, _⟩ := core_eq_fields h
  funext t
  unfold curLN
  rw [hproj, hz, hnum]

theorem prevTN_fst_core (orig : Original) {a b : Sign} (h : a.core = b.core) :
    prevTN orig a = prevTN orig b := by
  obtain ⟨_, _, _, _, _, _, _, _, hproj, _, _⟩ := core_eq_fields h
  funext t
  unfold prevTN
  rw [hproj]

theorem curTN_fst_core {a b : Sign} (h : a.core = b.core) : curTN a = curTN b := by
  obtain ⟨_, _, htpl, _, hnum, _, _, _, hproj, _, _⟩ := core_eq_fields h
  funext t
  unfold curTN
  rw [hproj, htpl, hnum]

theorem prevTLN_snd_core (orig : Original) (s : Sign) {a b : Sign} (h : a.core = b.core) :
    prevTLN orig s a = prevTLN orig s b := by
  obtain ⟨_, _, htpl, _, hnum, _, _, hz, hproj, _, _⟩ := core_eq_fields h
  unfold prevTLN
  rw [hproj, htpl, hz, hnum]

theorem curTLN_snd_core (s : Sign) {a b : Sign} (h : a.core = b.core) :
    curTLN s a = curTLN s b := by
  obtain ⟨_, _, htpl, _, hnum, _, _, hz, hproj, _, _⟩ := core_eq_fields h
  unfold curTLN
  rw [hproj, htpl, hz, hnum]

theorem prevLN_snd_core (orig : Original) (s : Sign) {a b : Sign} (h : a.core = b.core) :
    prevLN orig s a = prevLN orig s b := by
  obtain ⟨_, _, _, _, hnum, _, _, hz, hproj, _, _⟩ := core_eq_fields h
  unfold prevLN
  rw [hproj, hz, hnum]

theorem curLN_snd_core (s : Sign) {a b : Sign} (h : a.core = b.core) :
    curLN s a = curLN s b := by
  obtain ⟨_, _, _, _, hnum, _, _, hz, hproj, _, _⟩ := core_eq_fields h
  unfold curLN
  rw [hproj, hz, hnum]

theorem prevTN_snd_core (orig : Original) (s : Sign) {a b : Sign} (h : a.core = b.core) :
    prevTN orig s a = prevTN orig s b := by
  obtain ⟨_, _, htpl, _, hnum, _, _, _, hproj, _, _⟩ := core_eq_fields h
  unfold prevTN
  rw [hproj, htpl, hnum]

theorem curTN_snd_core (s : Sign) {a b : Sign} (h : a.core = b.core) :
    curTN s a = curTN s b := by
  obtain ⟨_, _, htpl, _, hnum, _, _, _, hproj, _, _⟩ := core_eq_fields h
  unfold curTN
  rw [hproj, htpl, hnum]

theorem scopeTLN_snd_shape (orig : Original) (x : Sign × List Sign) :
    ∃ g : Sign → Sign, (scopeTypeLocationNumber orig x).2 = (x.2).map g ∧
      (∀ t, (g t).core = t.core) ∧
      (∀ t, (g t).has_conflict_location_number = t.has_conflict_location_number) ∧
      (∀ t, (g t).has_conflict_type_number = t.has_conflict_type_number) := by
  obtain ⟨s, db⟩ := x
  by_cases h : (s.sign_template_id.isSome && s.zone_id.isSome) = true
  · rw [scopeTLN_eq orig s db h]
    exact ⟨_, rfl, proj_inv_g Sign.core setTLN _ _ (fun b t => setTLN_core b t),
      proj_inv_g (fun t => t.has_conflict_location_number) setTLN _ _
        (fun b t => setTLN_flag_ln b t),
      proj_inv_g (fun t => t.has_conflict_type_number) setTLN _ _
        (fun b t => setTLN_flag_tn b t)⟩
  · rw [scopeTLN_skip orig s db h]
    exact ⟨id, (List.map_id db).symm, fun t => rfl, fun t => rfl, fun t => rfl⟩

theorem scopeLN_snd_shape (orig : Original) (x : Sign × List Sign) :
    ∃ g : Sign → Sign, (scopeLocationNumber orig x).2 = (x.2).map g ∧
      (∀ t, (g t).core = t.core) ∧
      (∀ t, (g t).has_conflict_type_location_number = t.has_conflict_type_location_number) ∧
      (∀ t, (g t).has_conflict_type_number = t.has_conflict_type_number) := by
  obtain ⟨s, db⟩ := x
  by_cases h : s.zone_id.isSome = true
  · rw [scopeLN_eq orig s db h]
    exact ⟨_, rfl, proj_inv_g Sign.core setLN _ _ (fun b t => setLN_core b t),
      proj_inv_g (fun t => t.has_conflict_type_location_number) setLN _ _
        (fun b t => setLN_flag_tln b t),
      proj_inv_g (fun t => t.has_conflict_type_number) setLN _ _
        (fun b t => setLN_flag_tn b t)⟩
  · rw [scopeLN_skip orig s db h]
    exact ⟨id, (List.map_id db).symm, fun t => rfl, fun t => rfl, fun t => rfl⟩

theorem scopeTLN_own (orig : Original) (s : Sign) (db : List Sign)
    (h : (s.sign_template_id.isSome && s.zone_id.isSome) = true) :
    ((scopeTypeLocationNumber orig (s, db)).1.has_conflict_type_location_number = true ↔
      ∃ t ∈ db, t.id ≠ s.id ∧ curTLN s t = true) ∧
    ((scopeTypeLocationNumber orig (s, db)).2.map
        (fun t => t.has_conflict_type_location_number) =
      db.map (fun t => conflictFlagSpec s.id (prevTLN orig s) (curTLN s)
        ((db.filter (fun u => u.id != s.id && prevTLN orig s u)).length) t
        t.has_conflict_type_location_number)) := by
  rw [scopeTLN_eq orig s db h]
  constructor
  · rw [setTLN_flag_self, decide_eq_true_eq, filter_pos_iff]
    constructor
    · rintro ⟨t, ht, hp⟩
      rw [Bool.and_eq_true, bne_iff_ne] at hp
      exact ⟨t, ht, hp.1, hp.2⟩
    · rintro ⟨t, ht, hid, hc⟩
      refine ⟨t, ht, ?_⟩
      rw [Bool.and_eq_true, bne_iff_ne]
      exact ⟨hid, hc⟩
  · rw [List.map_map]
    apply List.map_congr_left
    intro t _
    simp only [Function.comp_apply]
    unfold conflictFlagSpec
    exact getF_ite_spec setTLN (fun u => u.has_conflict_type_location_number)
      (fun u => u.id != s.id && curTLN s u)
      (fun u => u.id != s.id && prevTLN orig s u &&
        decide ((List.filter (fun v => v.id != s.id && prevTLN orig s v) db).length = 1))
      t (fun b u => setTLN_flag_self b u)

theorem scopeLN_own (orig : Original) (s : Sign) (db : List Sign)
    (h : s.zone_id.isSome = true) :
    ((scopeLocationNumber orig (s, db)).1.has_conflict_location_number = true ↔
      ∃ t ∈ db, t.id ≠ s.id ∧ curLN s t = true) ∧
    ((scopeLocationNumber orig (s, db)).2.map (fun t => t.has_conflict_location_number) =
      db.map (fun t => conflictFlagSpec s.id (prevLN orig s) (curLN s)
        ((db.filter (fun u => u.id != s.id && prevLN orig s u)).length) t
        t.has_conflict_location_number)) := by
  rw [scopeLN_eq orig s db h]
  constructor
  · rw [setLN_flag_self, decide_eq_true_eq, filter_pos_iff]
    constructor
    · rintro ⟨t, ht, hp⟩
      rw [Bool.and_eq_true, bne_iff_ne] at hp
      exact ⟨t, ht, hp.1, hp.2⟩
    · rintro ⟨t, ht, hid, hc⟩
      refine ⟨t, ht, ?_⟩
      rw [Bool.and_eq_true, bne_iff_ne]
      exact ⟨hid, hc⟩
  · rw [List.map_map]
    apply List.map_congr_left
    intro t _
    simp only [Function.comp_apply]
    unfold conflictFlagSpec
    exact getF_ite_spec setLN (fun u => u.has_conflict_location_number)
      (fun u => u.id != s.id && curLN s u)
      (fun u => u.id != s.id && prevLN orig s u &&
        decide ((List.filter (fun v => v.id != s.id && prevLN orig s v) db).length = 1))
      t (fun b u => setLN_flag_self b u)

theorem scopeTN_own (orig : Original) (s : Sign) (db : List Sign)
    (h : s.sign_template_id.isSome = true) :
    ((scopeTypeNumber orig (s, db)).1.has_conflict_type_number = true ↔
      ∃ t ∈ db, t.id ≠ s.id ∧ curTN s t = true) ∧
    ((scopeTypeNumber orig (s, db)).2.map (fun t => t.has_conflict_type_number) =
      db.map (fun t => conflictFlagSpec s.id (prevTN orig s) (curTN s)
        ((db.filter (fun u => u.id != s.id && prevTN orig s u)).length) t
        t.has_conflict_type_number)) := by
  rw [scopeTN_eq orig s db h]
  constructor
  · rw [setTN_flag_self, decide_eq_true_eq, filter_pos_iff]
    constructor
    · rintro ⟨t, ht, hp⟩
      rw [Bool.and_eq_true, bne_iff_ne] at hp
      exact ⟨t, ht, hp.1, hp.2⟩
    · rintro ⟨t, ht, hid, hc⟩
      refine ⟨t, ht, ?_⟩
      rw [Bool.and_eq_true, bne_iff_ne]
      exact ⟨hid, hc⟩
  · rw [List.map_map]
    apply List.map_congr_left
    intro t _
    simp only [Function.comp_apply]
    unfold conflictFlagSpec
    exact getF_ite_spec setTN (fun u => u.has_conflict_type_number)
      (fun u => u.id != s.id && curTN s u)
      (fun u => u.id != s.id && prevTN orig s u &&
        decide ((List.filter (fun v => v.id != s.id && prevTN orig s v) db).length = 1))
      t (fun b u => setTN_flag_self b u)

/-- C2: for each of the three conflict scopes, a triggering save performs
the three steps in source order — (1) clear the saved sign's flag, (2)
query the other signs matching the previous tuple and clear the lone
survivor's flag when exactly one remains, (3) query the others matching
the current tuple and, when any exist, set the flag on every one of them
and on the saved sign.  Extensionally: the saved sign's flag ends true
exactly when a current-tuple sibling exists; a current-tuple sibling's
flag ends true; the previous-tuple sibling's flag ends false when it was
the only one and does not match the current tuple; every other row keeps
its flag, and no non-flag field of any row changes. -/
theorem conflict_rescan_scope_steps (orig : Original) (s : Sign) (db : List Sign)
    (htpl : s.sign_template_id.isSome = true) (hzone : s.zone_id.isSome = true) :
    ((conflictScan orig s db).1.has_conflict_type_location_number = true ↔
      ∃ t ∈ db, t.id ≠ s.id ∧ curTLN s t = true) ∧
    ((conflictScan orig s db).1.has_conflict_location_number = true ↔
      ∃ t ∈ db, t.id ≠ s.id ∧ curLN s t = true) ∧
    ((conflictScan orig s db).1.has_conflict_type_number = true ↔
      ∃ t ∈ db, t.id ≠ s.id ∧ curTN s t = true) ∧
    ((conflictScan orig s db).2.map Sign.core = db.map Sign.core) ∧
    ((conflictScan orig s db).2.map (fun t => t.has_conflict_type_location_number) =
      db.map (fun t => conflictFlagSpec s.id (prevTLN orig s) (curTLN s)
        ((db.filter (fun u => u.id != s.id && prevTLN orig s u)).length) t
        t.has_conflict_type_location_number)) ∧
    ((conflictScan orig s db).2.map (fun t => t.has_conflict_location_number) =
      db.map (fun t => conflictFlagSpec s.id (prevLN orig s) (curLN s)
        ((db.filter (fun u => u.id != s.id && prevLN orig s u)).length) t
        t.has_conflict_location_number)) ∧
    ((conflictScan orig s db).2.map (fun t => t.has_conflict_type_number) =
      db.map (fun t => conflictFlagSpec s.id (prevTN orig s) (curTN s)
        ((db.filter (fun u => u.id != s.id && prevTN orig s u)).length) t
        t.has_conflict_type_number)) := by
  have hcore := conflictScan_snd_core orig s db
  have hX1core : (scopeTypeLocationNumber orig (s, db)).1.core = s.core :=
    scopeTLN_fst_core orig (s, db)
  have hX2core : (scopeLocationNumber orig (scopeTypeLocationNumber orig (s, db))).1.core =
      s.core := (scopeLN_fst_core orig _).trans hX1core
  obtain ⟨g1, hg1, hg1core, hg1f2, hg1f3⟩ := scopeTLN_snd_shape orig (s, db)
  have hg1' : (scopeTypeLocationNumber orig (s, db)).2 = db.map g1 := hg1
  obtain ⟨g2, hg2, hg2core, hg2f1, hg2f3⟩ :=
    scopeLN_snd_shape orig (scopeTypeLocationNumber orig (s, db))
  have hz1 : (scopeTypeLocationNumber orig (s, db)).1.zone_id.isSome = true := by
    rw [(core_eq_fields hX1core).2.2.2.2.2.2.2.1]
    exact hzone
  have ht2 : (scopeLocationNumber orig
      (scopeTypeLocationNumber orig (s, db))).1.sign_template_id.isSome = true := by
    rw [(core_eq_fields hX2core).2.2.1]
    exact htpl
  have own1 := scopeTLN_own orig s db (by simp [htpl, hzone])
  have k2 := scopeLocationNumber_keeps_tln orig (scopeTypeLocationNumber orig (s, db))
  have k3 := scopeTypeNumber_keeps_tln orig
    (scopeLocationNumber orig (scopeTypeLocationNumber orig (s, db)))
  have k3ln := scopeTypeNumber_keeps_ln orig
    (scopeLocationNumber orig (scopeTypeLocationNumber orig (s, db)))
  have heta1 : scopeTypeLocationNumber orig (s, db) =
      ((scopeTypeLocationNumber orig (s, db)).1,
       (scopeTypeLocationNumber orig (s, db)).2) := rfl
  have heta2 : scopeLocationNumber orig (scopeTypeLocationNumber orig (s, db)) =
      ((scopeLocationNumber orig (scopeTypeLocationNumber orig (s, db))).1,
       (scopeLocationNumber orig (scopeTypeLocationNumber orig (s, db))).2) := rfl
  have own2 := scopeLN_own orig (scopeTypeLocationNumber orig (s, db)).1
    (scopeTypeLocationNumber orig (s, db)).2 hz1
  have own3 := scopeTN_own orig
    (scopeLocationNumber orig (scopeTypeLocationNumber orig (s, db))).1
    (scopeLocationNumber orig (scopeTypeLocationNumber orig (s, db))).2 ht2
  have hid1 : (scopeTypeLocationNumber orig (s, db)).1.id = s.id := id_of_core hX1core
  have hid2 : (scopeLocationNumber orig (scopeTypeLocationNumber orig (s, db))).1.id = s.id :=
    id_of_core hX2core
  have hcur2 : curLN (scopeTypeLocationNumber orig (s, db)).1 = curLN s :=
    curLN_fst_core hX1core
  have hprev2 : prevLN orig (scopeTypeLocationNumber orig (s, db)).1 = prevLN orig s :=
    prevLN_fst_core orig hX1core
  have hcur3 : curTN (scopeLocationNumber orig (scopeTypeLocationNumber orig (s, db))).1 =
      curTN s := curTN_fst_core hX2core
  have hprev3 : prevTN orig (scopeLocationNumber orig
      (scopeTypeLocationNumber orig (s, db))).1 = prevTN orig s := prevTN_fst_core orig hX2core
  have hg2' : (scopeLocationNumber orig (scopeTypeLocationNumber orig (s, db))).2 =
      (db.map g1).map g2 := by rw [hg2, hg1']
  have hp2g1 : ∀ t, ((fun u => u.id != s.id && prevLN orig s u) (g1 t)) =
      ((fun u => u.id != s.id && prevLN orig s u) t) := fun t => by
    simp only [id_of_core (hg1core t), prevLN_snd_core orig s (hg1core t)]
  have hp3g2 : ∀ t, ((fun u => u.id != s.id && prevTN orig s u) (g2 t)) =
      ((fun u => u.id != s.id && prevTN orig s u) t) := fun t => by
    simp only [id_of_core (hg2core t), prevTN_snd_core orig s (hg2core t)]
  have hp3g1 : ∀ t, ((fun u => u.id != s.id && prevTN orig s u) (g1 t)) =
      ((fun u => u.id != s.id && prevTN orig s u) t) := fun t => by
    simp only [id_of_core (hg1core t), prevTN_snd_core orig s (hg1core t)]
  refine ⟨?_, ?_, ?_, hcore, ?_, ?_, ?_⟩
  · show (scopeTypeNumber orig (scopeLocationNumber orig
      (scopeTypeLocationNumber orig (s, db)))).1.has_conflict_type_location_number = true ↔ _
    rw [k3.1, k2.1]
    exact own1.1
  · show (scopeTypeNumber orig (scopeLocationNumber orig
      (scopeTypeLocationNumber orig (s, db)))).1.has_conflict_location_number = true ↔ _
    rw [k3ln.1, heta1, own2.1]
    simp only [hg1', hid1, hcur2]
    exact exists_pred_map g1 db _ (fun t => by
      rw [id_of_core (hg1core t), curLN_snd_core s (hg1core t)])
  · show (scopeTypeNumber orig (scopeLocationNumber orig
      (scopeTypeLocationNumber orig (s, db)))).1.has_conflict_type_number = true ↔ _
    rw [heta2, own3.1]
    simp only [hg2', hid2, hcur3]
    rw [exists_pred_map g2 (db.map g1) _ (fun t => by
      rw [id_of_core (hg2core t), curTN_snd_core s (hg2core t)])]
    exact exists_pred_map g1 db _ (fun t => by
      rw [id_of_core (hg1core t), curTN_snd_core s (hg1core t)])
  · show (scopeTypeNumber orig (scopeLocationNumber orig
      (scopeTypeLocationNumber orig (s, db)))).2.map
        (fun t => t.has_conflict_type_location_number) = _
    rw [k3.2, k2.2]
    exact own1.2
  · show (scopeTypeNumber orig (scopeLocationNumber orig
      (scopeTypeLocationNumber orig (s, db)))).2.map
        (fun t => t.has_conflict_location_number) = _
    rw [k3ln.2, heta1, own2.2]
    simp only [hid1, hcur2, hprev2, hg1']
    simp only [filter_length_map g1 (fun u => u.id != s.id && prevLN orig s u) db hp2g1]
    rw [List.map_map]
    apply List.map_congr_left
    intro t _
    simp only [Function.comp_apply]
    unfold conflictFlagSpec
    simp only [id_of_core (hg1core t), prevLN_snd_core orig s (hg1core t),
      curLN_snd_core s (hg1core t), hg1f2 t]
  · show (scopeTypeNumber orig (scopeLocationNumber orig
      (scopeTypeLocationNumber orig (s, db)))).2.map
        (fun t => t.has_conflict_type_number) = _
    rw [heta2, own3.2]
    simp only [hid2, hcur3, hprev3, hg2']
    simp only [filter_length_map g2 (fun u => u.id != s.id && prevTN orig s u) (db.map g1) hp3g2,
      filter_length_map g1 (fun u => u.id != s.id && prevTN orig s u) db hp3g1]
    rw [List.map_map, List.map_map]
    apply List.map_congr_left
    intro t _
    simp only [Function.comp_apply]
    unfold conflictFlagSpec
    simp only [id_of_core (hg2core (g1 t)), prevTN_snd_core orig s (hg2core (g1 t)),
      curTN_snd_core s (hg2core (g1 t)), hg2f3 (g1 t),
      id_of_core (hg1core t), prevTN_snd_core orig s (hg1core t),
      curTN_snd_core s (hg1core t), hg1f3 t]

theorem conflict_rescan_scope_steps_witness :
    (({ exampleSign with zone_id := some 2, project_id := 3 } : Sign).sign_template_id.isSome
      = true) ∧
    (({ exampleSign with zone_id := some 2, project_id := 3 } : Sign).zone_id.isSome = true) ∧
    (conflictScan exampleOrig { exampleSign with zone_id := some 2, project_id := 3 }
      [{ exampleSign with zone_id := some 2, project_id := 3, id := 30 }]
      ).1.has_conflict_type_location_number = true := by
  refine ⟨by decide, by decide, ?_⟩
  exact (conflict_rescan_scope_steps exampleOrig
    { exampleSign with zone_id := some 2, project_id := 3 }
    [{ exampleSign with zone_id := some 2, project_id := 3, id := 30 }]
    (by decide) (by decide)).1.mpr
    ⟨{ exampleSign with zone_id := some 2, project_id := 3, id := 30 },
      by decide, by decide, by decide⟩

/-! ### Each flag is computed by its own scope alone -/

theorem scopeLN_f2_resp (orig : Original) (s1 s : Sign) (db1 db : List Sign)
    (hfst : s1.core = s.core)
    (hff : s1.has_conflict_location_number = s.has_conflict_location_number)
    (g : Sign → Sign) (hmap : db1 = db.map g)
    (hgcore : ∀ t, (g t).core = t.core)
    (hgf : ∀ t, (g t).has_conflict_location_number = t.has_conflict_location_number) :
    ((scopeLocationNumber orig (s1, db1)).1.has_conflict_location_number =
      (scopeLocationNumber orig (s, db)).1.has_conflict_location_number) ∧
    ((scopeLocationNumber orig (s1, db1)).2.map (fun t => t.has_conflict_location_number) =
      (scopeLocationNumber orig (s, db)).2.map (fun t => t.has_conflict_location_number)) := by
  have hz' : s1.zone_id = s.zone_id := (core_eq_fields hfst).2.2.2.2.2.2.2.1
  by_cases hz : s.zone_id.isSome = true
  · have hz1 : s1.zone_id.isSome = true := by rw [hz']; exact hz
    have o1 := scopeLN_own orig s1 db1 hz1
    have o2 := scopeLN_own orig s db hz
    constructor
    · rw [Bool.eq_iff_iff, o1.1, o2.1]
      simp only [hmap, id_of_core hfst, curLN_fst_core hfst]
      exact exists_pred_map g db _ (fun t => by
        rw [id_of_core (hgcore t), curLN_snd_core s (hgcore t)])
    · rw [o1.2, o2.2, hmap]
      simp only [id_of_core hfst, prevLN_fst_core orig hfst, curLN_fst_core hfst]
      simp only [filter_length_map g (fun u => u.id != s.id && prevLN orig s u) db
        (fun t => by simp only [id_of_core (hgcore t), prevLN_snd_core orig s (hgcore t)])]
      rw [List.map_map]
      apply List.map_congr_left
      intro t _
      simp only [Function.comp_apply]
      unfold conflictFlagSpec
      simp only [id_of_core (hgcore t), prevLN_snd_core orig s (hgcore t),
        curLN_snd_core s (hgcore t), hgf t]
  · have hz1 : ¬(s1.zone_id.isSome = true) := by rw [hz']; exact hz
    rw [scopeLN_skip orig s1 db1 hz1, scopeLN_skip orig s db hz]
    refine ⟨hff, ?_⟩
    rw [hmap]
    exact map_proj_invariant _ g db hgf

theorem scopeTN_f3_resp (orig : Original) (s1 s : Sign) (db1 db : List Sign)
    (hfst : s1.core = s.core)
    (hff : s1.has_conflict_type_number = s.has_conflict_type_number)
    (g : Sign → Sign) (hmap : db1 = db.map g)
    (hgcore : ∀ t, (g t).core = t.core)
    (hgf : ∀ t, (g t).has_conflict_type_number = t.has_conflict_type_number) :
    ((scopeTypeNumber orig (s1, db1)).1.has_conflict_type_number =
      (scopeTypeNumber orig (s, db)).1.has_conflict_type_number) ∧
    ((scopeTypeNumber orig (s1, db1)).2.map (fun t => t.has_conflict_type_number) =
      (scopeTypeNumber orig (s, db)).2.map (fun t => t.has_conflict_type_number)) := by
  have ht' : s1.sign_template_id = s.sign_template_id := (core_eq_fields hfst).2.2.1
  by_cases ht : s.sign_template_id.isSome = true
  · have ht1 : s1.sign_template_id.isSome = true := by rw [ht']; exact ht
    have o1 := scopeTN_own orig s1 db1 ht1
    have o2 := scopeTN_own orig s db ht
    constructor
    · rw [Bool.eq_iff_iff, o1.1, o2.1]
      simp only [hmap, id_of_core hfst, curTN_fst_core hfst]
      exact exists_pred_map g db _ (fun t => by
        rw [id_of_core (hgcore t), curTN_snd_core s (hgcore t)])
    · rw [o1.2, o2.2, hmap]
      simp only [id_of_core hfst, prevTN_fst_core orig hfst, curTN_fst_core hfst]
      simp only [filter_length_map g (fun u => u.id != s.id && prevTN orig s u) db
        (fun t => by simp only [id_of_core (hgcore t), prevTN_snd_core orig s (hgcore t)])]
      rw [List.map_map]
      apply List.map_congr_left
      intro t _
      simp only [Function.comp_apply]
      unfold conflictFlagSpec
      simp only [id_of_core (hgcore t), prevTN_snd_core orig s (hgcore t),
        curTN_snd_core s (hgcore t), hgf t]
  · have ht1 : ¬(s1.sign_template_id.isSome = true) := by rw [ht']; exact ht
    rw [scopeTN_skip orig s1 db1 ht1, scopeTN_skip orig s db ht]
    refine ⟨hff, ?_⟩
    rw [hmap]
    exact map_proj_invariant _ g db hgf

/-- C3: the conflict rescan runs only on a triggering save (a new sign, or
a number, template or zone that actually changed since load): otherwise
the table and all three conflict flags are untouched.  Within a rescan,
each scope runs only when its own fields are set and each flag is computed
independently of the others: the flag values produced by the full
three-scope rescan coincide with those produced by running that flag's own
scope block alone on the original state, and a skipped scope leaves its
flag unchanged on every row. -/
theorem conflict_rescan_trigger_gating_independence (orig : Original) (s : Sign)
    (db : List Sign) :
    ((orig.is_new = false ∧ orig.original_number = s.number ∧
       orig.original_sign_template_id = s.sign_template_id ∧
       orig.original_zone_id = s.position.zone_id) →
      ((Sign.save orig s db).2 = db ∧
       (Sign.save orig s db).1.has_conflict_type_location_number =
         s.has_conflict_type_location_number ∧
       (Sign.save orig s db).1.has_conflict_location_number =
         s.has_conflict_location_number ∧
       (Sign.save orig s db).1.has_conflict_type_number = s.has_conflict_type_number)) ∧
    ((conflictScan orig s db).1.has_conflict_type_location_number =
       (scopeTypeLocationNumber orig (s, db)).1.has_conflict_type_location_number ∧
     (conflictScan orig s db).2.map (fun t => t.has_conflict_type_location_number) =
       (scopeTypeLocationNumber orig (s, db)).2.map
         (fun t => t.has_conflict_type_location_number)) ∧
    ((conflictScan orig s db).1.has_conflict_location_number =
       (scopeLocationNumber orig (s, db)).1.has_conflict_location_number ∧
     (conflictScan orig s db).2.map (fun t => t.has_conflict_location_number) =
       (scopeLocationNumber orig (s, db)).2.map
         (fun t => t.has_conflict_location_number)) ∧
    ((conflictScan orig s db).1.has_conflict_type_number =
       (scopeTypeNumber orig (s, db)).1.has_conflict_type_number ∧
     (conflictScan orig s db).2.map (fun t => t.has_conflict_type_number) =
       (scopeTypeNumber orig (s, db)).2.map (fun t => t.has_conflict_type_number)) ∧
    (¬((s.sign_template_id.isSome && s.zone_id.isSome) = true) →
      ((conflictScan orig s db).1.has_conflict_type_location_number =
        s.has_conflict_type_location_number ∧
       (conflictScan orig s db).2.map (fun t => t.has_conflict_type_location_number) =
        db.map (fun t => t.has_conflict_type_location_number))) ∧
    (¬(s.zone_id.isSome = true) →
      ((conflictScan orig s db).1.has_conflict_location_number =
        s.has_conflict_location_number ∧
       (conflictScan orig s db).2.map (fun t => t.has_conflict_location_number) =
        db.map (fun t => t.has_conflict_location_number))) ∧
    (¬(s.sign_template_id.isSome = true) →
      ((conflictScan orig s db).1.has_conflict_type_number = s.has_conflict_type_number ∧
       (conflictScan orig s db).2.map (fun t => t.has_conflict_type_number) =
        db.map (fun t => t.has_conflict_type_number))) := by
  have hX1core : (scopeTypeLocationNumber orig (s, db)).1.core = s.core :=
    scopeTLN_fst_core orig (s, db)
  have hX2core : (scopeLocationNumber orig (scopeTypeLocationNumber orig (s, db))).1.core =
      s.core := (scopeLN_fst_core orig _).trans hX1core
  obtain ⟨g1, hg1, hg1core, hg1f2, hg1f3⟩ := scopeTLN_snd_shape orig (s, db)
  have hg1' : (scopeTypeLocationNumber orig (s, db)).2 = db.map g1 := hg1
  obtain ⟨g2, hg2, hg2core, hg2f1, hg2f3⟩ :=
    scopeLN_snd_shape orig (scopeTypeLocationNumber orig (s, db))
  have heta1 : scopeTypeLocationNumber orig (s, db) =
      ((scopeTypeLocationNumber orig (s, db)).1,
       (scopeTypeLocationNumber orig (s, db)).2) := rfl
  have heta2 : scopeLocationNumber orig (scopeTypeLocationNumber orig (s, db)) =
      ((scopeLocationNumber orig (scopeTypeLocationNumber orig (s, db))).1,
       (scopeLocationNumber orig (scopeTypeLocationNumber orig (s, db))).2) := rfl
  have k2tln := scopeLocationNumber_keeps_tln orig (scopeTypeLocationNumber orig (s, db))
  have k3tln := scopeTypeNumber_keeps_tln orig
    (scopeLocationNumber orig (scopeTypeLocationNumber orig (s, db)))
  have k3ln := scopeTypeNumber_keeps_ln orig
    (scopeLocationNumber orig (scopeTypeLocationNumber orig (s, db)))
  have ind1 : (conflictScan orig s db).1.has_conflict_type_location_number =
      (scopeTypeLocationNumber orig (s, db)).1.has_conflict_type_location_number ∧
      (conflictScan orig s db).2.map (fun t => t.has_conflict_type_location_number) =
      (scopeTypeLocationNumber orig (s, db)).2.map
        (fun t => t.has_conflict_type_location_number) := by
    constructor
    · exact k3tln.1.trans k2tln.1
    · exact k3tln.2.trans k2tln.2
  have hX1f2 : (scopeTypeLocationNumber orig (s, db)).1.has_conflict_location_number =
      s.has_conflict_location_number :=
    (scopeTypeLocationNumber_keeps_ln orig (s, db)).1
  have ind2 : (conflictScan orig s db).1.has_conflict_location_number =
      (scopeLocationNumber orig (s, db)).1.has_conflict_location_number ∧
      (conflictScan orig s db).2.map (fun t => t.has_conflict_location_number) =
      (scopeLocationNumber orig (s, db)).2.map (fun t => t.has_conflict_location_number) := by
    have hres := scopeLN_f2_resp orig (scopeTypeLocationNumber orig (s, db)).1 s
      (scopeTypeLocationNumber orig (s, db)).2 db hX1core hX1f2 g1 hg1' hg1core hg1f2
    constructor
    · show (scopeTypeNumber orig (scopeLocationNumber orig
        (scopeTypeLocationNumber orig (s, db)))).1.has_conflict_location_number = _
      rw [k3ln.1, heta1]
      exact hres.1
    · show (scopeTypeNumber orig (scopeLocationNumber orig
        (scopeTypeLocationNumber orig (s, db)))).2.map
          (fun t => t.has_conflict_location_number) = _
      rw [k3ln.2, heta1]
      exact hres.2
  have hX2f3 : (scopeLocationNumber orig
      (scopeTypeLocationNumber orig (s, db))).1.has_conflict_type_number =
      s.has_conflict_type_number :=
    ((scopeLocationNumber_keeps_tn orig (scopeTypeLocationNumber orig (s, db))).1).trans
      ((scopeTypeLocationNumber_keeps_tn orig (s, db)).1)
  have hX2map : (scopeLocationNumber orig (scopeTypeLocationNumber orig (s, db))).2 =
      db.map (fun t => g2 (g1 t)) := by
    rw [hg2, hg1', List.map_map]
    rfl
  have ind3 : (conflictScan orig s db).1.has_conflict_type_number =
      (scopeTypeNumber orig (s, db)).1.has_conflict_type_number ∧
      (conflictScan orig s db).2.map (fun t => t.has_conflict_type_number) =
      (scopeTypeNumber orig (s, db)).2.map (fun t => t.has_conflict_type_number) := by
    have hres := scopeTN_f3_resp orig
      (scopeLocationNumber orig (scopeTypeLocationNumber orig (s, db))).1 s
      (scopeLocationNumber orig (scopeTypeLocationNumber orig (s, db))).2 db hX2core hX2f3
      (fun t => g2 (g1 t)) hX2map
      (fun t => ((hg2core (g1 t)).trans (hg1core t)))
      (fun t => ((hg2f3 (g1 t)).trans (hg1f3 t)))
    constructor
    · show (scopeTypeNumber orig (scopeLocationNumber orig
        (scopeTypeLocationNumber orig (s, db)))).1.has_conflict_type_number = _
      rw [heta2]
      exact hres.1
    · show (scopeTypeNumber orig (scopeLocationNumber orig
        (scopeTypeLocationNumber orig (s, db)))).2.map
          (fun t => t.has_conflict_type_number) = _
      rw [heta2]
      exact hres.2
  refine ⟨?_, ind1, ind2, ind3, ?_, ?_, ?_⟩
  · rintro ⟨h1, h2, h3, h4⟩
    obtain ⟨u, hsave, huz, hup, hupos, hustate, hunum, hutpl, huid, huf1, huf2, huf3,
      hurev, hupw, huns⟩ := save_shape orig s db
    have hcond : ¬(orig.is_new = true ∨ orig.original_number ≠ u.number ∨
        orig.original_sign_template_id ≠ u.sign_template_id ∨
        orig.original_zone_id ≠ u.zone_id) := by
      rw [hunum, hutpl, huz]
      simp [h1, h2, h3, h4]
    rw [hsave, if_neg hcond]
    exact ⟨rfl, huf1, huf2, huf3⟩
  · intro h
    refine ⟨?_, ?_⟩
    · rw [ind1.1, scopeTLN_skip orig s db h]
    · rw [ind1.2, scopeTLN_skip orig s db h]
  · intro h
    refine ⟨?_, ?_⟩
    · rw [ind2.1, scopeLN_skip orig s db h]
    · rw [ind2.2, scopeLN_skip orig s db h]
  · intro h
    refine ⟨?_, ?_⟩
    · rw [ind3.1, scopeTN_skip orig s db h]
    · rw [ind3.2, scopeTN_skip orig s db h]

theorem conflict_rescan_trigger_gating_independence_witness :
    ((Sign.save exampleOrig exampleSign []).2 = ([] : List Sign)) ∧
    ((Sign.save exampleOrig exampleSign []).1.has_conflict_type_location_number = false) ∧
    ((conflictScan exampleOrig { exampleSign with sign_template_id := none }
        [exampleSign]).1.has_conflict_type_number =
      ({ exampleSign with sign_template_id := none } : Sign).has_conflict_type_number) := by
  have H := conflict_rescan_trigger_gating_independence exampleOrig exampleSign []
  have H2 := conflict_rescan_trigger_gating_independence exampleOrig
    { exampleSign with sign_template_id := none } [exampleSign]
  have ha := H.1 ⟨rfl, rfl, rfl, rfl⟩
  refine ⟨ha.1, ?_, ?_⟩
  · rw [ha.2.1]
    decide
  · exact (H2.2.2.2.2.2.2 (by decide)).1
